import Mathlib

/-!
# Typed NVS stream (`src/nvs_device.cpp`): embedding and verified properties

The translation unit `nvs_device.cpp` implements two classes of the namespace `nvs`:

* `dev`    : the process-wide singleton that represents one NVS partition;
* `stream` : a handle bound to one NVS namespace, with typed `read<T>` / `write<T>`,
             size queries, blob transfer, `commit` and `close`.

The ESP-IDF storage driver (`nvs_flash_init`, `nvs_open`, `nvs_get_*`, `nvs_set_*`,
`nvs_commit`, `nvs_close`) is an external collaborator.  It is embedded as a record of
pure functions over an abstract driver state; every call made by the embedded code is
appended to a call log, so that "how many times was a primitive called, with which
arguments and which result" is an observable of the model.

Logging (`ESP_LOGx`, `printf_helper`) has no effect on the state and is left out.
-/

namespace nvs

/-! ## Result codes (values of `esp_err.h` / `nvs.h` of ESP-IDF) -/

/-- The type `esp_err_t` of ESP-IDF is a 32 bit signed integer. -/
abbrev esp_err_t := Int

def ESP_OK : esp_err_t := 0
def ESP_ERR_NVS_BASE : esp_err_t := 0x1100
def ESP_ERR_NVS_NOT_FOUND : esp_err_t := ESP_ERR_NVS_BASE + 0x02
def ESP_ERR_NVS_TYPE_MISMATCH : esp_err_t := ESP_ERR_NVS_BASE + 0x03
def ESP_ERR_NVS_INVALID_HANDLE : esp_err_t := ESP_ERR_NVS_BASE + 0x07
def ESP_ERR_NVS_INVALID_STATE : esp_err_t := ESP_ERR_NVS_BASE + 0x0b
def ESP_ERR_NVS_INVALID_LENGTH : esp_err_t := ESP_ERR_NVS_BASE + 0x0c
def ESP_ERR_NVS_NO_FREE_PAGES : esp_err_t := ESP_ERR_NVS_BASE + 0x0d
def ESP_ERR_NVS_NEW_VERSION_FOUND : esp_err_t := ESP_ERR_NVS_BASE + 0x10

/-! ## Machine types -/

/-- Number of values of `size_t` on the 32 bit targets of the library. -/
def SIZE_T_MOD : Nat := 2 ^ 32

/-- The value `(size_t)-1`. -/
def SIZE_MAX : Nat := SIZE_T_MOD - 1

/-- Number of values of `uint32_t` (`nvs_handle_t`, `stream::store`). -/
def UINT32_MOD : Nat := 2 ^ 32

/-- The eight integer item types for which `stream::read` / `stream::write` are specialised. -/
inductive IntT where
  | int8_t | uint8_t | int16_t | uint16_t | int32_t | uint32_t | int64_t | uint64_t
  deriving DecidableEq, Repr

/-- Width in bits of an integer item type. -/
def IntT.bits : IntT → Nat
  | .int8_t | .uint8_t => 8
  | .int16_t | .uint16_t => 16
  | .int32_t | .uint32_t => 32
  | .int64_t | .uint64_t => 64

/-- Signedness of an integer item type. -/
def IntT.signed : IntT → Bool
  | .int8_t | .int16_t | .int32_t | .int64_t => true
  | _ => false

/-- Smallest value of the type. -/
def IntT.lo (t : IntT) : Int := if t.signed then -(2 ^ (t.bits - 1)) else 0

/-- Largest value of the type. -/
def IntT.hi (t : IntT) : Int := if t.signed then 2 ^ (t.bits - 1) - 1 else 2 ^ t.bits - 1

/-- The integer `x` is a value of the type `t`. -/
def IntT.inRange (t : IntT) (x : Int) : Prop := t.lo ≤ x ∧ x ≤ t.hi

instance (t : IntT) (x : Int) : Decidable (t.inRange x) := by
  unfold IntT.inRange; exact inferInstance

/-- Content of an object of type `t` when the bit pattern of `x` is stored into it
(two's complement reduction modulo `2 ^ bits`). -/
def IntT.wrap (t : IntT) (x : Int) : Int :=
  if t.signed then (x + 2 ^ (t.bits - 1)) % 2 ^ t.bits - 2 ^ (t.bits - 1) else x % 2 ^ t.bits

/-- A `std::string` / `char` array: a sequence of characters. -/
abbrev CString := List Char

/-- The terminating character of a C string. -/
def NUL : Char := Char.ofNat 0

/-- The C string held by `s` (`std::string::c_str` read as `const char*`):
the characters before the first NUL. -/
def c_str (s : CString) : CString := s.takeWhile (fun c => c != NUL)

/-- The function `strlen`. -/
def strlen (s : CString) : Nat := (c_str s).length

/-- The call `strcpy(buf, src)`: the C string of `src` and its terminator overwrite the
start of `buf`. -/
def strcpy (buf : CString) (src : CString) : CString :=
  c_str src ++ [NUL] ++ buf.drop (strlen src + 1)

/-- The expression `new char[n]`; the indeterminate bytes of fresh storage are represented by NUL. -/
def new_char (n : Nat) : CString := List.replicate n NUL

/-! ## The external storage driver -/

/-- Access mode of `nvs_open` (`nvs_open_mode_t` of `nvs.h`). -/
inductive nvs_open_mode_t where
  | NVS_READONLY | NVS_READWRITE
  deriving DecidableEq, Repr

/-- Result of a driver primitive that only reports a code. -/
structure DrvRet (σ : Type) where
  err : esp_err_t
  drv : σ

/-- Result of `nvs_open`: the code and the content of `*out_handle` after the call. -/
structure DrvOpen (σ : Type) where
  err : esp_err_t
  handle : Nat
  drv : σ

/-- Result of an integer get: the code and the content of `*out_value` after the call. -/
structure DrvGet (σ : Type) where
  err : esp_err_t
  out : Int
  drv : σ

/-- Result of `nvs_get_str` / `nvs_get_blob`: the code, the content of the caller's buffer
after the call (meaningless when no buffer was passed) and the content of `*length`. -/
structure DrvBuf (σ : Type) where
  err : esp_err_t
  buf : CString
  length : Nat
  drv : σ

/-- The primitives of the storage driver used by `nvs_device.cpp`, as functions over the
driver state `σ`.  The eight `nvs_get_<width>` / `nvs_set_<width>` functions are indexed by
the item type.  Out-parameters appear as an argument (content before the call) and as a
component of the result (content after the call); a `NULL` buffer is `none`. -/
structure Driver (σ : Type) where
  nvs_flash_init : σ → DrvRet σ
  nvs_open : CString → nvs_open_mode_t → Nat → σ → DrvOpen σ
  nvs_close : Nat → σ → σ
  nvs_commit : Nat → σ → DrvRet σ
  nvs_get_int : IntT → Nat → CString → Int → σ → DrvGet σ
  nvs_set_int : IntT → Nat → CString → Int → σ → DrvRet σ
  nvs_get_str : Nat → CString → Option CString → Nat → σ → DrvBuf σ
  nvs_set_str : Nat → CString → CString → σ → DrvRet σ
  nvs_get_blob : Nat → CString → Option CString → Nat → σ → DrvBuf σ
  nvs_set_blob : Nat → CString → CString → Nat → σ → DrvRet σ

/-- One call of a driver primitive: its arguments and the code it returned. -/
inductive Call where
  | nvs_flash_init (ret : esp_err_t)
  | nvs_open (name : CString) (mode : nvs_open_mode_t) (ret : esp_err_t)
  | nvs_close (handle : Nat)
  | nvs_commit (handle : Nat) (ret : esp_err_t)
  | nvs_get_int (t : IntT) (handle : Nat) (key : CString) (ret : esp_err_t)
  | nvs_set_int (t : IntT) (handle : Nat) (key : CString) (value : Int) (ret : esp_err_t)
  | nvs_get_str (handle : Nat) (key : CString) (buf : Option CString) (length : Nat)
      (ret : esp_err_t)
  | nvs_set_str (handle : Nat) (key : CString) (value : CString) (ret : esp_err_t)
  | nvs_get_blob (handle : Nat) (key : CString) (buf : Option CString) (length : Nat)
      (ret : esp_err_t)
  | nvs_set_blob (handle : Nat) (key : CString) (value : CString) (length : Nat)
      (ret : esp_err_t)
  deriving DecidableEq, Repr

/-- The call is one of the set primitives (`set_<width>`, `set_string`, `set_blob`). -/
def Call.isSet : Call → Bool
  | .nvs_set_int _ _ _ _ _ => true
  | .nvs_set_str _ _ _ _ => true
  | .nvs_set_blob _ _ _ _ _ => true
  | _ => false

/-- The call is one of the get primitives (integer, string or blob, size queries included). -/
def Call.isGet : Call → Bool
  | .nvs_get_int _ _ _ _ => true
  | .nvs_get_str _ _ _ _ _ => true
  | .nvs_get_blob _ _ _ _ _ => true
  | _ => false

/-- The call is `nvs_commit`. -/
def Call.isCommit : Call → Bool
  | .nvs_commit _ _ => true
  | _ => false

/-- The call is `nvs_close`. -/
def Call.isClose : Call → Bool
  | .nvs_close _ => true
  | _ => false

/-- The call is the partition initialisation `nvs_flash_init`. -/
def Call.isInit : Call → Bool
  | .nvs_flash_init _ => true
  | _ => false

/-- The call is a set primitive that returned `ESP_OK`. -/
def Call.isSetOk : Call → Bool
  | .nvs_set_int _ _ _ _ r => r == ESP_OK
  | .nvs_set_str _ _ _ r => r == ESP_OK
  | .nvs_set_blob _ _ _ _ r => r == ESP_OK
  | _ => false

/-- The call is an `nvs_commit` that returned `ESP_OK`. -/
def Call.isCommitOk : Call → Bool
  | .nvs_commit _ r => r == ESP_OK
  | _ => false

/-! ## Class `dev` -/

/-- The class `nvs::dev`: its only data member is the result of the last initialisation. -/
structure dev where
  err : esp_err_t
  deriving DecidableEq, Repr

/-- Everything outside a `stream` object: the state of the driver, the function-local static
`instance` of `dev::core` (`none` until the first call constructs it) and the log of the
driver calls made so far. -/
structure World (σ : Type) where
  drv : σ
  core_instance : Option dev
  log : List Call

/-- The function `dev::Init()`: initialise the default partition. -/
def dev.Init {σ : Type} (D : Driver σ) (w : World σ) : esp_err_t × World σ :=
  let r := D.nvs_flash_init w.drv
  (r.err, { w with drv := r.drv, log := w.log ++ [Call.nvs_flash_init r.err] })

/-- The constructor `dev::dev()`. -/
def dev.construct {σ : Type} (D : Driver σ) (w : World σ) : dev × World σ :=
  let r := dev.Init D w
  ({ err := r.1 }, r.2)

/-- The function `dev::core()`: the singleton, constructed by the first call. -/
def dev.core {σ : Type} (D : Driver σ) (w : World σ) : dev × World σ :=
  match w.core_instance with
  | some inst => (inst, w)
  | none =>
    let r := dev.construct D w
    (r.1, { r.2 with core_instance := some r.1 })

/-- The function `dev::status()`. -/
def dev.status (self : dev) : esp_err_t := self.err

/-- The function `dev::isOK()`. -/
def dev.isOK (self : dev) : Bool := if self.status == ESP_OK then true else false

/-- The function `dev::check()`. -/
def dev.check {σ : Type} (D : Driver σ) (w : World σ) : Bool × World σ :=
  let r := dev.core D w
  (r.1.isOK, r.2)

/-- The function `dev::reInit()`: initialise again and keep the result. -/
def dev.reInit {σ : Type} (D : Driver σ) (self : dev) (w : World σ) :
    esp_err_t × dev × World σ :=
  let r := dev.Init D w
  let self := { self with err := r.1 }
  (self.err, self, r.2)

/-- Modelled from the spec: the static function `dev::state()` is defined in the header
`nvs_device`, which is not part of the sources; the spec describes the test made by the
sophisticated accessor as one on the `status()` of the singleton. -/
def dev.state {σ : Type} (D : Driver σ) (w : World σ) : esp_err_t × World σ :=
  let c := dev.core D w
  (c.1.status, c.2)

/-- The function `dev::partition()`.  The second call of `dev::state()` is made only when the
first comparison fails; `core().reInit()` changes the singleton in place. -/
def dev.partition {σ : Type} (D : Driver σ) (w : World σ) : dev × World σ :=
  let s1 := dev.state D w
  let s2 := if s1.1 == ESP_ERR_NVS_NO_FREE_PAGES then s1 else dev.state D s1.2
  if s1.1 == ESP_ERR_NVS_NO_FREE_PAGES || s2.1 == ESP_ERR_NVS_NEW_VERSION_FOUND then
    let c := dev.core D s2.2
    let r := dev.reInit D c.1 c.2
    dev.core D { r.2.2 with core_instance := some r.2.1 }
  else
    dev.core D s2.2

/-! ## Class `stream` -/

/-- Modelled from the spec: the enumeration `open_mode` is declared in the header `nvstream`,
which is not part of the sources; the spec names the two modes read-only and read-write. -/
inductive open_mode where
  | readonly | readwrite
  deriving DecidableEq, Repr

/-- The function `openmode2nvs`. -/
def openmode2nvs (mode : open_mode) : nvs_open_mode_t :=
  match mode with
  | .readwrite => .NVS_READWRITE
  | .readonly => .NVS_READONLY

/-- The function `handler`: the handle kept in the `uint32_t` storage. -/
def handler (handler_stor : Nat) : Nat := handler_stor

/-- The data members of `nvs::stream` used by `nvs_device.cpp`: the handle storage `store`,
the last result code `err` and the change state `chg_st` (the dirty flag). -/
structure stream where
  store : Nat
  err : esp_err_t
  chg_st : Bool
  deriving DecidableEq, Repr

/-- Outcome of a member function of `stream`: the returned value, the object after the call
and the world after the call. -/
structure Ret (σ : Type) (α : Type) where
  val : α
  self : stream
  world : World σ

/-- Outcome of a member function of `stream` with a reference parameter: `out` is the
content of the referenced object after the call. -/
structure RetOut (σ : Type) (β : Type) where
  val : esp_err_t
  out : β
  self : stream
  world : World σ

/-- Modelled from the spec: the default member initialisers of `store` and `chg_st` are in
the header `nvstream`, which is not part of the sources; a new stream holds the null handle
and is clean.  The constructor `stream::stream()` itself sets `err`. -/
def stream.construct : stream :=
  { store := 0, err := ESP_ERR_NVS_INVALID_STATE, chg_st := false }

/-- The function `stream::set_chgst()`. -/
def stream.set_chgst (self : stream) : stream := { self with chg_st := true }

/-- Modelled from the spec: `stream::clr_chngst()` is defined in the header `nvstream`, which
is not part of the sources; it clears the dirty flag. -/
def stream.clr_chngst (self : stream) : stream := { self with chg_st := false }

/-- The function `stream::open`. -/
def stream.open {σ : Type} (D : Driver σ) (self : stream) (name : CString) (mode : open_mode)
    (w : World σ) : Ret σ esp_err_t :=
  let c := dev.check D w
  if c.1 then
    let r := D.nvs_open (c_str name) (openmode2nvs mode) (handler self.store) c.2.drv
    let self := { self with store := r.handle % UINT32_MOD, err := r.err }
    { val := self.err, self := self,
      world := { c.2 with drv := r.drv,
                          log := c.2.log ++ [Call.nvs_open (c_str name) (openmode2nvs mode) r.err] } }
  else
    let self := { self with err := ESP_ERR_NVS_INVALID_STATE }
    { val := self.err, self := self, world := c.2 }

/-- The constructor `stream::stream(spacename, mode)`; it does not initialise `err`, which
`open` assigns on both of its paths. -/
def stream.construct_open {σ : Type} (D : Driver σ) (spacename : CString) (mode : open_mode)
    (w : World σ) : Ret σ Unit :=
  let r := stream.open D stream.construct spacename mode w
  { val := (), self := r.self, world := r.world }

/-- The function `stream::close`. -/
def stream.close {σ : Type} (D : Driver σ) (self : stream) (w : World σ) : Ret σ esp_err_t :=
  let d := D.nvs_close (handler self.store) w.drv
  let w := { w with drv := d, log := w.log ++ [Call.nvs_close (handler self.store)] }
  let self := { self with store := 0 }
  let self := { self with err := ESP_OK }
  { val := self.err, self := self, world := w }

/-- The function `stream::read_blob`; `item` is the caller's buffer (`none` for a null
pointer), `length` the content of the in/out length. -/
def stream.read_blob {σ : Type} (D : Driver σ) (self : stream) (name : CString)
    (item : Option CString) (length : Nat) (w : World σ) : RetOut σ (Option CString × Nat) :=
  let c := dev.core D w
  if c.1.isOK then
    let r := D.nvs_get_blob (handler self.store) (c_str name) item length c.2.drv
    let self := { self with err := r.err }
    { val := self.err, out := (item.map (fun _ => r.buf), r.length % SIZE_T_MOD), self := self,
      world := { c.2 with drv := r.drv,
                          log := c.2.log ++ [Call.nvs_get_blob (handler self.store) (c_str name)
                                               item length r.err] } }
  else
    let self := { self with err := ESP_ERR_NVS_INVALID_STATE }
    { val := self.err, out := (item, length), self := self, world := c.2 }

/-- The function `stream::write_blob`. -/
def stream.write_blob {σ : Type} (D : Driver σ) (self : stream) (name : CString)
    (item : CString) (length : Nat) (w : World σ) : Ret σ esp_err_t :=
  let c := dev.core D w
  if c.1.isOK then
    let r := D.nvs_set_blob (handler self.store) (c_str name) item length c.2.drv
    let self := { self with err := r.err }
    { val := self.err, self := self,
      world := { c.2 with drv := r.drv,
                          log := c.2.log ++ [Call.nvs_set_blob (handler self.store) (c_str name)
                                               item length r.err] } }
  else
    let self := { self with err := ESP_ERR_NVS_INVALID_STATE }
    { val := self.err, self := self, world := c.2 }

/-- The function `stream::commit`. -/
def stream.commit {σ : Type} (D : Driver σ) (self : stream) (w : World σ) : Ret σ esp_err_t :=
  let c := dev.check D w
  if c.1 then
    let r := D.nvs_commit (handler self.store) c.2.drv
    let self := { self with err := r.err }
    let self := if self.err == ESP_OK then self.clr_chngst else self
    { val := self.err, self := self,
      world := { c.2 with drv := r.drv,
                          log := c.2.log ++ [Call.nvs_commit (handler self.store) r.err] } }
  else
    let self := { self with err := ESP_ERR_NVS_INVALID_STATE }
    let self := if self.err == ESP_OK then self.clr_chngst else self
    { val := self.err, self := self, world := c.2 }

/-- The function `stream::~stream()`. -/
def stream.destroy {σ : Type} (D : Driver σ) (self : stream) (w : World σ) : Ret σ Unit :=
  let r := stream.close D self w
  { val := (), self := r.self, world := r.world }

/-! ### Typed read -/

/-- The function `stream::core<ItemT>::read<read_action>`, where `read_action` is the
driver's get primitive of the item type `t`. -/
def stream.core.read {σ : Type} (D : Driver σ) (t : IntT) (nvstream : stream) (name : CString)
    (out : Int) (w : World σ) : RetOut σ Int :=
  let r := D.nvs_get_int t (handler nvstream.store) (c_str name) out w.drv
  let nvstream := { nvstream with err := r.err }
  { val := nvstream.err, out := t.wrap r.out, self := nvstream,
    world := { w with drv := r.drv,
                      log := w.log ++ [Call.nvs_get_int t (handler nvstream.store) (c_str name)
                                         r.err] } }

/-- The eight specialisations `stream::read<int8_t>` ... `stream::read<uint64_t>`: each
forwards to `core<T>::read` with the get primitive of its type and assigns the result to
`err`. -/
def stream.read {σ : Type} (D : Driver σ) (t : IntT) (self : stream) (name : CString)
    (item : Int) (w : World σ) : RetOut σ Int :=
  let r := stream.core.read D t self (c_str name) item w
  let self := { r.self with err := r.val }
  { val := self.err, out := r.out, self := self, world := r.world }

/-- The specialisation `stream::read<char>`; the `char` is represented by its value as
`int8_t`, which is how the function accesses it. -/
def stream.read_char {σ : Type} (D : Driver σ) (self : stream) (name : CString) (item : Int)
    (w : World σ) : RetOut σ Int :=
  let r := stream.read D .int8_t self name item w
  { val := r.self.err, out := r.out, self := r.self, world := r.world }

/-- The specialisation `stream::read<bool>`; 49 and 48 are the codes of the characters 1
and 0. -/
def stream.read_bool {σ : Type} (D : Driver σ) (self : stream) (name : CString) (item : Bool)
    (w : World σ) : RetOut σ Bool :=
  let c : Int := if item then 49 else 48
  let r := stream.read_char D self name c w
  let c := r.out
  let item := !(c == 48)
  { val := r.self.err, out := item, self := r.self, world := r.world }

/-- The specialisation `stream::get_size<std::string>`. -/
def stream.get_size_string {σ : Type} (D : Driver σ) (self : stream) (name : CString)
    (w : World σ) : Ret σ Nat :=
  let size := SIZE_MAX
  let r := D.nvs_get_str (handler self.store) (c_str name) none size w.drv
  let self := { self with err := r.err }
  { val := if self.err == ESP_OK then r.length % SIZE_T_MOD else SIZE_MAX, self := self,
    world := { w with drv := r.drv,
                      log := w.log ++ [Call.nvs_get_str (handler self.store) (c_str name) none size
                                         r.err] } }

/-- The specialisation `stream::get_size<char[]>`. -/
def stream.get_size_chars {σ : Type} (D : Driver σ) (self : stream) (name : CString)
    (w : World σ) : Ret σ Nat :=
  stream.get_size_string D self name w

/-- The specialisation `stream::get_size<void>` (the size of a blob item). -/
def stream.get_size_void {σ : Type} (D : Driver σ) (self : stream) (name : CString)
    (w : World σ) : Ret σ Nat :=
  let size := SIZE_MAX
  let r := D.nvs_get_blob (handler self.store) (c_str name) none size w.drv
  let self := { self with err := r.err }
  { val := if self.err == ESP_OK then r.length % SIZE_T_MOD else SIZE_MAX, self := self,
    world := { w with drv := r.drv,
                      log := w.log ++ [Call.nvs_get_blob (handler self.store) (c_str name) none
                                         size r.err] } }

/-- The specialisation `stream::get_size<void*>`. -/
def stream.get_size_void_ptr {σ : Type} (D : Driver σ) (self : stream) (name : CString)
    (w : World σ) : Ret σ Nat :=
  stream.get_size_void D self name w

/-- The specialisation `stream::read<std::string>`. -/
def stream.read_string {σ : Type} (D : Driver σ) (self : stream) (name : CString)
    (item : CString) (w : World σ) : RetOut σ CString :=
  let q := stream.get_size_string D self name w
  let bufsz := q.val
  let self := q.self
  if self.err == ESP_OK then
    let bufsz := if (item.length + 1) % SIZE_T_MOD > bufsz then (item.length + 1) % SIZE_T_MOD
                 else bufsz
    let buf := new_char bufsz
    let buf := strcpy buf item
    let r := D.nvs_get_str (handler self.store) (c_str name) (some buf) bufsz q.world.drv
    let self := { self with err := r.err }
    let item := c_str r.buf
    { val := self.err, out := item, self := self,
      world := { q.world with drv := r.drv,
                              log := q.world.log ++ [Call.nvs_get_str (handler self.store)
                                                       (c_str name) (some buf) bufsz r.err] } }
  else
    { val := self.err, out := item, self := self, world := q.world }

/-! ### Typed write -/

/-- The function `stream::core<ItemT>::write<write_action>`, where `write_action` is the
driver's set primitive of the item type `t`. -/
def stream.core.write {σ : Type} (D : Driver σ) (t : IntT) (nvstream : stream) (name : CString)
    (item : Int) (w : World σ) : Ret σ esp_err_t :=
  let tmpval : Int := 0
  let rd := stream.read D t nvstream name tmpval w
  let tmpval := rd.out
  let nvstream := rd.self
  if (nvstream.err == ESP_OK || nvstream.err == ESP_ERR_NVS_NOT_FOUND) && tmpval != item then
    let r := D.nvs_set_int t (handler nvstream.store) (c_str name) item rd.world.drv
    let nvstream := { nvstream with err := r.err }
    let nvstream := if nvstream.err == ESP_OK then nvstream.set_chgst else nvstream
    { val := nvstream.err, self := nvstream,
      world := { rd.world with drv := r.drv,
                               log := rd.world.log ++ [Call.nvs_set_int t (handler rd.self.store)
                                                         (c_str name) item r.err] } }
  else
    { val := nvstream.err, self := nvstream, world := rd.world }

/-- The eight specialisations `stream::write<int8_t>` ... `stream::write<uint64_t>`: each
forwards to `core<T>::write` with the set primitive of its type and assigns the result to
`err`. -/
def stream.write {σ : Type} (D : Driver σ) (t : IntT) (self : stream) (name : CString)
    (item : Int) (w : World σ) : Ret σ esp_err_t :=
  let r := stream.core.write D t self (c_str name) item w
  let self := { r.self with err := r.val }
  { val := self.err, self := self, world := r.world }

/-- The statements of `stream::write<const std::string&>` and `stream::write<const char[]>`
after the comparison block: the call of `nvs_set_str`, the dirty marking and the return. -/
def stream.write_set_str {σ : Type} (D : Driver σ) (self : stream) (name : CString)
    (item : CString) (w : World σ) : Ret σ esp_err_t :=
  let h := handler self.store
  let r := D.nvs_set_str h (c_str name) (c_str item) w.drv
  let self := { self with err := r.err }
  let self := if self.err == ESP_OK then self.set_chgst else self
  { val := self.err, self := self,
    world := { w with drv := r.drv,
                      log := w.log ++ [Call.nvs_set_str h (c_str name) (c_str item) r.err] } }

/-- The specialisation `stream::write<const std::string&>`. -/
def stream.write_string {σ : Type} (D : Driver σ) (self : stream) (name : CString)
    (item : CString) (w : World σ) : Ret σ esp_err_t :=
  let q := stream.get_size_string D self name w
  let size := q.val
  if q.self.err == ESP_OK && size == item.length then
    let tmpstr : CString := []
    let rd := stream.read_string D q.self name tmpstr q.world
    let tmpstr := rd.out
    if rd.self.err == ESP_OK && tmpstr == item then
      { val := rd.self.err, self := rd.self, world := rd.world }
    else
      stream.write_set_str D rd.self name item rd.world
  else
    stream.write_set_str D q.self name item q.world

/-- The specialisation `stream::write<const char[]>`; the argument is the C string held by
`item`. -/
def stream.write_chars {σ : Type} (D : Driver σ) (self : stream) (name : CString)
    (item : CString) (w : World σ) : Ret σ esp_err_t :=
  let q := stream.get_size_chars D self name w
  let size := q.val
  if q.self.err == ESP_OK && size == strlen item then
    let tmpstr : CString := []
    let rd := stream.read_string D q.self name tmpstr q.world
    let tmpstr := rd.out
    if rd.self.err == ESP_OK && tmpstr == c_str item then
      { val := rd.self.err, self := rd.self, world := rd.world }
    else
      stream.write_set_str D rd.self name (c_str item) rd.world
  else
    stream.write_set_str D q.self name (c_str item) q.world

/-- The function `stream::write_str`. -/
def stream.write_str {σ : Type} (D : Driver σ) (self : stream) (name : CString)
    (item : CString) (w : World σ) : Ret σ esp_err_t :=
  let r := D.nvs_set_str (handler self.store) (c_str name) (c_str item) w.drv
  let self := { self with err := r.err }
  { val := self.err, self := self,
    world := { w with drv := r.drv,
                      log := w.log ++ [Call.nvs_set_str (handler self.store) (c_str name)
                                         (c_str item) r.err] } }

/-! ## A driver that behaves as a key-value map

The concrete driver below is used to evaluate the embedded code on concrete inputs.  It
keeps one entry per key; a get of a present key of the right type succeeds with the stored
value, a get of an absent key answers `ESP_ERR_NVS_NOT_FOUND` and leaves the destination
untouched, a set stores and succeeds.  Calls on a handle that is not open answer
`ESP_ERR_NVS_INVALID_HANDLE`.  String sizes are reported as ESP-IDF does: number of characters
plus one for the terminator. -/

/-- State of the map-like driver. -/
structure KV where
  init_result : esp_err_t
  next_handle : Nat
  opened : List Nat
  ints : List (CString × IntT × Int)
  strs : List (CString × CString)
  blobs : List (CString × CString)
  deriving DecidableEq, Repr

/-- Replace the entry of `key` in an association list. -/
def KV.put {β : Type} (key : CString) (v : β) (l : List (CString × β)) : List (CString × β) :=
  (key, v) :: l.filter (fun p => p.1 != key)

/-- Integer get of the map-like driver. -/
def KV.get_int (t : IntT) (h : Nat) (key : CString) (out : Int) (st : KV) : DrvGet KV :=
  if h ∈ st.opened then
    match st.ints.lookup key with
    | none => { err := ESP_ERR_NVS_NOT_FOUND, out := out, drv := st }
    | some (t', v) =>
      if t' = t then { err := ESP_OK, out := v, drv := st }
      else { err := ESP_ERR_NVS_TYPE_MISMATCH, out := out, drv := st }
  else { err := ESP_ERR_NVS_INVALID_HANDLE, out := out, drv := st }

/-- Integer set of the map-like driver. -/
def KV.set_int (t : IntT) (h : Nat) (key : CString) (v : Int) (st : KV) : DrvRet KV :=
  if h ∈ st.opened then
    { err := ESP_OK, drv := { st with ints := KV.put key (t, v) st.ints } }
  else { err := ESP_ERR_NVS_INVALID_HANDLE, drv := st }

/-- String or blob get of the map-like driver over the table `tbl`; `extra` is 1 for strings
(the terminator) and 0 for blobs. -/
def KV.get_buf (tbl : List (CString × CString)) (extra : Nat) (h : Nat) (key : CString)
    (buf : Option CString) (length : Nat) (st : KV) : DrvBuf KV :=
  if h ∈ st.opened then
    match tbl.lookup key with
    | none => { err := ESP_ERR_NVS_NOT_FOUND, buf := buf.getD [], length := length, drv := st }
    | some s =>
      match buf with
      | none => { err := ESP_OK, buf := [], length := s.length + extra, drv := st }
      | some b =>
        if length < s.length + extra then
          { err := ESP_ERR_NVS_INVALID_LENGTH, buf := b, length := s.length + extra, drv := st }
        else
          { err := ESP_OK, buf := s ++ List.replicate extra NUL ++ b.drop (s.length + extra),
            length := s.length + extra, drv := st }
  else { err := ESP_ERR_NVS_INVALID_HANDLE, buf := buf.getD [], length := length, drv := st }

/-- The map-like driver. -/
def KV.driver : Driver KV where
  nvs_flash_init := fun st => { err := st.init_result, drv := st }
  nvs_open := fun _ _ _ st =>
    { err := ESP_OK, handle := st.next_handle,
      drv := { st with next_handle := st.next_handle + 1, opened := st.next_handle :: st.opened } }
  nvs_close := fun h st => { st with opened := st.opened.filter (fun x => x != h) }
  nvs_commit := fun h st =>
    if h ∈ st.opened then { err := ESP_OK, drv := st }
    else { err := ESP_ERR_NVS_INVALID_HANDLE, drv := st }
  nvs_get_int := KV.get_int
  nvs_set_int := KV.set_int
  nvs_get_str := fun h key buf length st => KV.get_buf st.strs 1 h key buf length st
  nvs_set_str := fun h key v st =>
    if h ∈ st.opened then { err := ESP_OK, drv := { st with strs := KV.put key (c_str v) st.strs } }
    else { err := ESP_ERR_NVS_INVALID_HANDLE, drv := st }
  nvs_get_blob := fun h key buf length st => KV.get_buf st.blobs 0 h key buf length st
  nvs_set_blob := fun h key v length st =>
    if h ∈ st.opened then
      { err := ESP_OK, drv := { st with blobs := KV.put key (v.take length) st.blobs } }
    else { err := ESP_ERR_NVS_INVALID_HANDLE, drv := st }

/-- An empty store whose partition initialisation answers `init_result`. -/
def KV.empty (init_result : esp_err_t) : KV :=
  { init_result := init_result, next_handle := 1, opened := [], ints := [], strs := [],
    blobs := [] }

/-- The world before any call: nothing constructed, nothing logged. -/
def World.start {σ : Type} (d : σ) : World σ :=
  { drv := d, core_instance := none, log := [] }

/-! ## Concrete scenarios on the map-like driver -/

/-- The namespace name used in the scenarios. -/
def Scenario.cfg : CString := ['c', 'f', 'g']

/-- The key used in the scenarios. -/
def Scenario.count : CString := ['c', 'o', 'u', 'n', 't']

/-- A stream opened read-write on the namespace `cfg` of an empty store over a usable
device. -/
def Scenario.opened : Ret KV esp_err_t :=
  stream.open KV.driver stream.construct Scenario.cfg .readwrite (World.start (KV.empty ESP_OK))

/-- The scenario `opened` followed by `write<uint32_t>("count", 5)`. -/
def Scenario.wrote5 : Ret KV esp_err_t :=
  stream.write KV.driver .uint32_t Scenario.opened.self Scenario.count 5 Scenario.opened.world

/-- The scenario `wrote5` followed by `commit()`. -/
def Scenario.committed5 : Ret KV esp_err_t :=
  stream.commit KV.driver Scenario.wrote5.self Scenario.wrote5.world

/-- The scenario `wrote5` followed by `close()`. -/
def Scenario.closedDirty : Ret KV esp_err_t :=
  stream.close KV.driver Scenario.wrote5.self Scenario.wrote5.world

/-- An attempt to open a stream when the partition initialisation answered
`ESP_ERR_NVS_NO_FREE_PAGES`. -/
def Scenario.unusable : Ret KV esp_err_t :=
  stream.open KV.driver stream.construct Scenario.cfg .readwrite
    (World.start (KV.empty ESP_ERR_NVS_NO_FREE_PAGES))

/-- The scenario `closedDirty` followed by a second `open` of the same namespace. -/
def Scenario.reopened : Ret KV esp_err_t :=
  stream.open KV.driver Scenario.closedDirty.self Scenario.cfg .readwrite
    Scenario.closedDirty.world

/-- The key of the string item used in the scenarios. -/
def Scenario.label : CString := ['l', 'b', 'l']

/-- The scenario `opened` followed by `write<const std::string&>("lbl", "ab")`. -/
def Scenario.wroteStr : Ret KV esp_err_t :=
  stream.write_string KV.driver Scenario.opened.self Scenario.label ['a', 'b']
    Scenario.opened.world

/-- The scenario `wroteStr` followed by `commit()`: the stream is clean and "lbl" stores
"ab". -/
def Scenario.committedStr : Ret KV esp_err_t :=
  stream.commit KV.driver Scenario.wroteStr.self Scenario.wroteStr.world

/-! ### Sequences of write operations and commits -/

/-- A write operation of the public interface, or `commit()`. -/
inductive Op where
  | write (t : IntT) (name : CString) (item : Int)
  | write_string (name : CString) (item : CString)
  | write_chars (name : CString) (item : CString)
  | write_blob (name : CString) (item : CString) (length : Nat)
  | commit
  deriving DecidableEq, Repr

/-- Apply one operation to a stream. -/
def Op.run {σ : Type} (D : Driver σ) (op : Op) (self : stream) (w : World σ) : Ret σ esp_err_t :=
  match op with
  | .write t name item => stream.write D t self name item w
  | .write_string name item => stream.write_string D self name item w
  | .write_chars name item => stream.write_chars D self name item w
  | .write_blob name item length => stream.write_blob D self name item length w
  | .commit => stream.commit D self w

/-- Apply a sequence of operations, first to last; the result is the stream and the world
after the last one. -/
def Op.runAll {σ : Type} (D : Driver σ) : List Op → stream → World σ → stream × World σ
  | [], self, w => (self, w)
  | op :: ops, self, w => Op.runAll D ops (op.run D self w).self (op.run D self w).world

/-- Reading a call log first to last from the state `b`: whether a set primitive has
returned success since the last commit that returned success. -/
def pendingSet (b : Bool) : List Call → Bool
  | [] => b
  | c :: cs => pendingSet (if c.isSetOk then true else if c.isCommitOk then false else b) cs

/-- The operation is not `write_blob`. -/
def Op.notBlob : Op → Bool
  | .write_blob _ _ _ => false
  | _ => true

/-- The scenario `opened` followed by the one-element sequence
`write_blob("count", "x", 1)`. -/
def Scenario.wroteBlob : stream × World KV :=
  Op.runAll KV.driver [Op.write_blob Scenario.count ['x'] 1] Scenario.opened.self
    Scenario.opened.world

/-- The scenario `committedStr` followed by `write<const std::string&>("lbl", "ab")`. -/
def Scenario.rewroteStr : Ret KV esp_err_t :=
  stream.write_string KV.driver Scenario.committedStr.self Scenario.label ['a', 'b']
    Scenario.committedStr.world

/-- The scenario `committedStr` followed by `write<const char[]>("lbl", "ab")`. -/
def Scenario.rewroteChars : Ret KV esp_err_t :=
  stream.write_chars KV.driver Scenario.committedStr.self Scenario.label ['a', 'b']
    Scenario.committedStr.world

/-- The key of the boolean item used in the scenarios. -/
def Scenario.flag : CString := ['f', 'l', 'a', 'g']

/-- The scenario `opened` followed by `write<int8_t>("flag", 48)`: the item stores the code
of the character 0. -/
def Scenario.wroteFlag0 : Ret KV esp_err_t :=
  stream.write KV.driver .int8_t Scenario.opened.self Scenario.flag 48 Scenario.opened.world

/-- The scenario `opened` followed by `write<int8_t>("flag", 49)`: the item stores the code
of the character 1. -/
def Scenario.wroteFlag1 : Ret KV esp_err_t :=
  stream.write KV.driver .int8_t Scenario.opened.self Scenario.flag 49 Scenario.opened.world

/-- The scenario `opened` followed by `write_blob("count", "xyz", 3)`. -/
def Scenario.wroteBlob3 : Ret KV esp_err_t :=
  stream.write_blob KV.driver Scenario.opened.self Scenario.count ['x', 'y', 'z'] 3
    Scenario.opened.world

/-! ## Theorems -/

/-- Taking the C string of a C string changes nothing. -/
theorem c_str_idem (s : CString) : c_str (c_str s) = c_str s := by
  unfold c_str
  exact List.takeWhile_idem

/-- The function `strlen` never exceeds the length of the sequence. -/
theorem strlen_le_length (s : CString) : strlen s ≤ s.length := by
  unfold strlen c_str
  induction s with
  | nil => simp
  | cons a l ih =>
    by_cases h : (a != NUL) = true
    · simp only [List.takeWhile_cons, h, if_true, List.length_cons]; omega
    · simp only [List.takeWhile_cons, h, List.length_cons]; simp

/-- C2. Write de-duplication for integers: for every integer type `t`, key `k` and value
`v`, if the driver's get, as `write` issues it (destination preloaded with 0), returns
success with `v`, then `write<t>(k, v)` returns success, leaves the dirty flag as it was and
calls no set primitive: the only driver call is that get. -/
theorem write_same_value_makes_no_set {σ : Type} (D : Driver σ) (t : IntT) (self : stream)
    (k : CString) (v : Int) (w : World σ)
    (hget : (D.nvs_get_int t (handler self.store) (c_str k) 0 w.drv).err = ESP_OK)
    (hval : t.wrap (D.nvs_get_int t (handler self.store) (c_str k) 0 w.drv).out = v) :
    let r := stream.write D t self k v w
    r.val = ESP_OK ∧ r.self.err = ESP_OK ∧ r.self.chg_st = self.chg_st ∧
    r.world.log = w.log ++ [Call.nvs_get_int t (handler self.store) (c_str k) ESP_OK] ∧
    r.world.log.countP Call.isSet = w.log.countP Call.isSet ∧
    r.world.drv = (D.nvs_get_int t (handler self.store) (c_str k) 0 w.drv).drv := by
  simp [stream.write, stream.core.write, stream.read, stream.core.read, c_str_idem, hget, hval,
    List.countP_append, Call.isSet]

/-- Witness of C2: after `write<uint32_t>("count", 5)` the same write is issued again. -/
theorem write_same_value_makes_no_set_witness :
    (KV.driver.nvs_get_int .uint32_t (handler Scenario.wrote5.self.store)
        (c_str Scenario.count) 0 Scenario.wrote5.world.drv).err = ESP_OK ∧
    IntT.uint32_t.wrap (KV.driver.nvs_get_int .uint32_t (handler Scenario.wrote5.self.store)
        (c_str Scenario.count) 0 Scenario.wrote5.world.drv).out = 5 ∧
    (stream.write KV.driver .uint32_t Scenario.wrote5.self Scenario.count 5
        Scenario.wrote5.world).val = ESP_OK ∧
    (stream.write KV.driver .uint32_t Scenario.wrote5.self Scenario.count 5
        Scenario.wrote5.world).world.log.countP Call.isSet
      = Scenario.wrote5.world.log.countP Call.isSet :=
  have h := write_same_value_makes_no_set KV.driver .uint32_t Scenario.wrote5.self
    Scenario.count 5 Scenario.wrote5.world (by decide) (by decide)
  ⟨by decide, by decide, h.1, h.2.2.2.2.1⟩

/-- C3. Integer write blocked by a read error.  Let `g` be the result of the pre-write get
of `write<t>(k, v)`.  If `g.err` is neither success nor key-not-found, then the write calls no
set primitive, leaves the dirty flag as it was and returns, and stores in `err`, exactly
`g.err`.  And whenever the call log shows a set attempt, the returned code and `err` are
the result of that set (issued on the state the get left behind), not the result of the
get. -/
theorem write_blocked_by_read_error {σ : Type} (D : Driver σ) (t : IntT) (self : stream)
    (k : CString) (v : Int) (w : World σ) :
    let g := D.nvs_get_int t (handler self.store) (c_str k) 0 w.drv
    let p := D.nvs_set_int t (handler self.store) (c_str k) v g.drv
    let r := stream.write D t self k v w
    (g.err ≠ ESP_OK → g.err ≠ ESP_ERR_NVS_NOT_FOUND →
      r.val = g.err ∧ r.self.err = g.err ∧ r.self.chg_st = self.chg_st ∧
      r.world.log = w.log ++ [Call.nvs_get_int t (handler self.store) (c_str k) g.err] ∧
      r.world.log.countP Call.isSet = w.log.countP Call.isSet ∧ r.world.drv = g.drv) ∧
    (r.world.log.countP Call.isSet ≠ w.log.countP Call.isSet →
      r.val = p.err ∧ r.self.err = p.err ∧
      r.world.log = w.log ++ [Call.nvs_get_int t (handler self.store) (c_str k) g.err,
                              Call.nvs_set_int t (handler self.store) (c_str k) v p.err] ∧
      r.world.drv = p.drv) := by
  intro g p r
  refine ⟨?_, ?_⟩
  · intro h1 h2
    have h1' : (D.nvs_get_int t (handler self.store) (c_str k) 0 w.drv).err ≠ ESP_OK := h1
    have h2' : (D.nvs_get_int t (handler self.store) (c_str k) 0 w.drv).err
        ≠ ESP_ERR_NVS_NOT_FOUND := h2
    simp [r, g, stream.write, stream.core.write, stream.read, stream.core.read, c_str_idem,
      h1', h2', List.countP_append, Call.isSet]
  · intro hset
    by_cases hc : ((g.err == ESP_OK || g.err == ESP_ERR_NVS_NOT_FOUND) && t.wrap g.out != v) = true
    · have hc' : (((D.nvs_get_int t (handler self.store) (c_str k) 0 w.drv).err == ESP_OK ||
          (D.nvs_get_int t (handler self.store) (c_str k) 0 w.drv).err == ESP_ERR_NVS_NOT_FOUND) &&
          t.wrap (D.nvs_get_int t (handler self.store) (c_str k) 0 w.drv).out != v) = true := hc
      simp only [r, g, p, stream.write, stream.core.write, stream.read, stream.core.read,
        c_str_idem, hc', if_true]
      refine ⟨?_, ?_, ?_⟩
      · split <;> rfl
      · split <;> rfl
      · simp
    · exfalso
      apply hset
      have hc' : ¬ (((D.nvs_get_int t (handler self.store) (c_str k) 0 w.drv).err == ESP_OK ||
          (D.nvs_get_int t (handler self.store) (c_str k) 0 w.drv).err == ESP_ERR_NVS_NOT_FOUND) &&
          t.wrap (D.nvs_get_int t (handler self.store) (c_str k) 0 w.drv).out != v) = true := hc
      simp only [r, stream.write, stream.core.write, stream.read, stream.core.read,
        c_str_idem, hc']
      simp [List.countP_append, Call.isSet]

/-- Witness of C3: a get that answers type-mismatch blocks `write<int8_t>("count", 1)`, and
the first `write<uint32_t>("count", 5)` attempts a set. -/
theorem write_blocked_by_read_error_witness :
    ((KV.driver.nvs_get_int .int8_t (handler Scenario.wrote5.self.store) (c_str Scenario.count) 0
        Scenario.wrote5.world.drv).err ≠ ESP_OK ∧
     (KV.driver.nvs_get_int .int8_t (handler Scenario.wrote5.self.store) (c_str Scenario.count) 0
        Scenario.wrote5.world.drv).err ≠ ESP_ERR_NVS_NOT_FOUND ∧
     (stream.write KV.driver .int8_t Scenario.wrote5.self Scenario.count 1
        Scenario.wrote5.world).val
       = (KV.driver.nvs_get_int .int8_t (handler Scenario.wrote5.self.store)
           (c_str Scenario.count) 0 Scenario.wrote5.world.drv).err ∧
     (stream.write KV.driver .int8_t Scenario.wrote5.self Scenario.count 1
        Scenario.wrote5.world).val = ESP_ERR_NVS_TYPE_MISMATCH) ∧
    ((stream.write KV.driver .uint32_t Scenario.opened.self Scenario.count 5
        Scenario.opened.world).world.log.countP Call.isSet
       ≠ Scenario.opened.world.log.countP Call.isSet ∧
     (stream.write KV.driver .uint32_t Scenario.opened.self Scenario.count 5
        Scenario.opened.world).val
       = (KV.driver.nvs_set_int .uint32_t (handler Scenario.opened.self.store)
           (c_str Scenario.count) 5
           (KV.driver.nvs_get_int .uint32_t (handler Scenario.opened.self.store)
             (c_str Scenario.count) 0 Scenario.opened.world.drv).drv).err) :=
  ⟨⟨by decide, by decide,
    ((write_blocked_by_read_error KV.driver .int8_t Scenario.wrote5.self Scenario.count 1
      Scenario.wrote5.world).1 (by decide) (by decide)).1, by decide⟩,
   ⟨by decide,
    ((write_blocked_by_read_error KV.driver .uint32_t Scenario.opened.self Scenario.count 5
      Scenario.opened.world).2 (by decide)).1⟩⟩

/-- C4. `commit()` and the dirty flag.  Let `c` be the outcome of the usability check made by
`commit()` and `p` the result of the driver's commit on the handle.  If the device is usable
and `p` is success, the dirty flag is false afterwards and success is returned.  If the
device is usable and `p` is an error, that error is returned and stored in `err` and the
dirty flag is as before.  If the device is unusable, the driver's commit is not called,
invalid-state is returned and stored in `err`, and the dirty flag is as before. -/
theorem commit_dirty_flag {σ : Type} (D : Driver σ) (self : stream) (w : World σ) :
    let c := dev.check D w
    let p := D.nvs_commit (handler self.store) c.2.drv
    let r := stream.commit D self w
    (c.1 = true → p.err = ESP_OK →
      r.val = ESP_OK ∧ r.self.err = ESP_OK ∧ r.self.chg_st = false ∧
      r.world.log = c.2.log ++ [Call.nvs_commit (handler self.store) ESP_OK]) ∧
    (c.1 = true → p.err ≠ ESP_OK →
      r.val = p.err ∧ r.self.err = p.err ∧ r.self.chg_st = self.chg_st ∧
      r.world.log = c.2.log ++ [Call.nvs_commit (handler self.store) p.err]) ∧
    (c.1 = false →
      r.val = ESP_ERR_NVS_INVALID_STATE ∧ r.self.err = ESP_ERR_NVS_INVALID_STATE ∧
      r.self.chg_st = self.chg_st ∧ r.world.log = c.2.log ∧ r.world.drv = c.2.drv ∧
      r.world.log.countP Call.isCommit = w.log.countP Call.isCommit) := by
  intro c p r
  refine ⟨?_, ?_, ?_⟩
  · intro hc hp
    have hc' : (dev.check D w).1 = true := hc
    have hp' : (D.nvs_commit (handler self.store) (dev.check D w).2.drv).err = ESP_OK := hp
    simp [r, c, stream.commit, hc', hp', stream.clr_chngst]
  · intro hc hp
    have hc' : (dev.check D w).1 = true := hc
    have hp' : (D.nvs_commit (handler self.store) (dev.check D w).2.drv).err ≠ ESP_OK := hp
    simp [r, c, p, stream.commit, hc', hp', stream.clr_chngst]
  · intro hc
    have hc' : (dev.check D w).1 = false := hc
    have hne : ¬ (ESP_ERR_NVS_INVALID_STATE = ESP_OK) := by decide
    simp only [r, c, stream.commit, hc', hne]
    refine ⟨by simp [hne], by simp [hne], by simp [hne], by simp, by simp, ?_⟩
    simp only [Bool.false_eq_true, if_false]
    unfold dev.check dev.core
    cases w.core_instance with
    | some i => rfl
    | none => simp [dev.construct, dev.Init, List.countP_append, Call.isCommit]

/-- Witness of C4: a commit that succeeds, a commit that the driver refuses (the handle was
closed) and a commit on an unusable device. -/
theorem commit_dirty_flag_witness :
    ((dev.check KV.driver Scenario.wrote5.world).1 = true ∧
     Scenario.wrote5.self.chg_st = true ∧
     (stream.commit KV.driver Scenario.wrote5.self Scenario.wrote5.world).self.chg_st = false) ∧
    ((dev.check KV.driver Scenario.closedDirty.world).1 = true ∧
     (KV.driver.nvs_commit (handler Scenario.closedDirty.self.store)
        (dev.check KV.driver Scenario.closedDirty.world).2.drv).err ≠ ESP_OK ∧
     (stream.commit KV.driver Scenario.closedDirty.self Scenario.closedDirty.world).self.chg_st
       = Scenario.closedDirty.self.chg_st) ∧
    ((dev.check KV.driver Scenario.unusable.world).1 = false ∧
     (stream.commit KV.driver Scenario.unusable.self Scenario.unusable.world).val
       = ESP_ERR_NVS_INVALID_STATE) :=
  ⟨⟨by decide, by decide,
    ((commit_dirty_flag KV.driver Scenario.wrote5.self Scenario.wrote5.world).1
      (by decide) (by decide)).2.2.1⟩,
   ⟨by decide, by decide,
    ((commit_dirty_flag KV.driver Scenario.closedDirty.self Scenario.closedDirty.world).2.1
      (by decide) (by decide)).2.2.1⟩,
   ⟨by decide,
    ((commit_dirty_flag KV.driver Scenario.unusable.self Scenario.unusable.world).2.2
      (by decide)).1⟩⟩

/-- C7. `close()` effect and frame: for every stream state, `close()` calls the driver's
close primitive once, on the handle held before the call, and no other primitive (so never
commit); it sets the handle to 0 and `err` to success, returns success, and leaves the dirty
flag and the device singleton as they were.  The destructor does the same. -/
theorem close_effect_and_frame {σ : Type} (D : Driver σ) (self : stream) (w : World σ) :
    let r := stream.close D self w
    let d := stream.destroy D self w
    r.val = ESP_OK ∧ r.self.store = 0 ∧ r.self.err = ESP_OK ∧ r.self.chg_st = self.chg_st ∧
    r.world.log = w.log ++ [Call.nvs_close self.store] ∧
    r.world.log.countP Call.isCommit = w.log.countP Call.isCommit ∧
    r.world.log.countP Call.isClose = w.log.countP Call.isClose + 1 ∧
    r.world.drv = D.nvs_close self.store w.drv ∧
    r.world.core_instance = w.core_instance ∧
    d.self = r.self ∧ d.world.log = r.world.log ∧ d.world.drv = r.world.drv := by
  simp [stream.close, stream.destroy, handler, List.countP_append, Call.isCommit, Call.isClose]

/-- A fresh buffer has the requested number of elements. -/
theorem new_char_length (n : Nat) : (new_char n).length = n := by
  simp [new_char]

/-- When the buffer can hold the C string and its terminator, `strcpy` keeps its size. -/
theorem strcpy_length (buf src : CString) (h : strlen src + 1 ≤ buf.length) :
    (strcpy buf src).length = buf.length := by
  simp only [strcpy, strlen, List.length_append, List.length_cons, List.length_nil,
    List.length_drop] at *
  omega

/-- After `strcpy` the buffer starts with the C string and its terminator. -/
theorem strcpy_take (buf src : CString) :
    (strcpy buf src).take (strlen src + 1) = c_str src ++ [NUL] := by
  have hlen : (c_str src ++ [NUL]).length = strlen src + 1 := by simp [strlen]
  unfold strcpy
  rw [← hlen, List.take_left]

/-- The selection made by `read<std::string>` is the maximum of its two candidates. -/
theorem bufsz_select (S M : Nat) (hM : M + 1 < SIZE_T_MOD) :
    (if (M + 1) % SIZE_T_MOD > S then (M + 1) % SIZE_T_MOD else S) = max S (M + 1) := by
  rw [Nat.mod_eq_of_lt hM]
  split <;> omega

/-- C10. String read buffer sizing.  Let `q` be the result of the size query of
`read<std::string>(k)`, `S` the size it reports and `M` the length of the seed string (a
`std::string`, so `M + 1` is representable in `size_t`).  If the query succeeds, the
driver's string get is called once, with a buffer of exactly `max S (M + 1)` elements and
with that same number as in/out length; this capacity is at least `S` and at least `M + 1`,
and the buffer starts with the seed and its terminator.  If the query fails, its code is
returned and stored in `err`, the seed string is unchanged, and the size query is the only
driver call. -/
theorem read_string_buffer_sizing {σ : Type} (D : Driver σ) (self : stream) (k item : CString)
    (w : World σ) (hM : item.length + 1 < SIZE_T_MOD) :
    let q := D.nvs_get_str (handler self.store) (c_str k) none SIZE_MAX w.drv
    let S := q.length % SIZE_T_MOD
    let M := item.length
    let buf := strcpy (new_char (max S (M + 1))) item
    let g := D.nvs_get_str (handler self.store) (c_str k) (some buf) (max S (M + 1)) q.drv
    let r := stream.read_string D self k item w
    (q.err = ESP_OK →
      r.world.log = w.log ++
        [Call.nvs_get_str (handler self.store) (c_str k) none SIZE_MAX ESP_OK,
         Call.nvs_get_str (handler self.store) (c_str k) (some buf) (max S (M + 1)) g.err] ∧
      buf.length = max S (M + 1) ∧ S ≤ buf.length ∧ M + 1 ≤ buf.length ∧
      buf.take (strlen item + 1) = c_str item ++ [NUL] ∧
      r.val = g.err ∧ r.self.err = g.err ∧ r.out = c_str g.buf) ∧
    (q.err ≠ ESP_OK →
      r.val = q.err ∧ r.self.err = q.err ∧ r.out = item ∧
      r.world.log = w.log ++
        [Call.nvs_get_str (handler self.store) (c_str k) none SIZE_MAX q.err] ∧
      r.world.drv = q.drv) := by
  intro q S M buf g r
  have hlen : buf.length = max S (M + 1) := by
    have h1 : strlen item + 1 ≤ (new_char (max S (M + 1))).length := by
      have := strlen_le_length item
      rw [new_char_length]
      omega
    simp only [buf]
    rw [strcpy_length _ _ h1, new_char_length]
  refine ⟨?_, ?_⟩
  · intro hq
    have hq' : (D.nvs_get_str (handler self.store) (c_str k) none SIZE_MAX w.drv).err = ESP_OK := hq
    refine ⟨?_, hlen, by omega, by omega, strcpy_take _ _, ?_, ?_, ?_⟩ <;>
      simp [r, g, buf, S, M, q, stream.read_string, stream.get_size_string, hq',
        bufsz_select _ _ hM]
  · intro hq
    have hq' : (D.nvs_get_str (handler self.store) (c_str k) none SIZE_MAX w.drv).err ≠ ESP_OK := hq
    simp [r, q, stream.read_string, stream.get_size_string, hq']

/-- Witness of C10: the item "lbl" stores "ab" (size 3) and is read into a seed of length 4,
so the buffer has 5 elements; the item "count" is not a string item, so the size query
fails. -/
theorem read_string_buffer_sizing_witness :
    (['x', 'y', 'z', 'w'].length + 1 < SIZE_T_MOD ∧
     (KV.driver.nvs_get_str (handler Scenario.committedStr.self.store) (c_str Scenario.label)
        none SIZE_MAX Scenario.committedStr.world.drv).err = ESP_OK ∧
     (KV.driver.nvs_get_str (handler Scenario.committedStr.self.store) (c_str Scenario.label)
        none SIZE_MAX Scenario.committedStr.world.drv).length % SIZE_T_MOD = 3 ∧
     (stream.read_string KV.driver Scenario.committedStr.self Scenario.label
        ['x', 'y', 'z', 'w'] Scenario.committedStr.world).world.log
       = Scenario.committedStr.world.log ++
          [Call.nvs_get_str (handler Scenario.committedStr.self.store) (c_str Scenario.label)
             none SIZE_MAX ESP_OK,
           Call.nvs_get_str (handler Scenario.committedStr.self.store) (c_str Scenario.label)
             (some ['x', 'y', 'z', 'w', NUL]) 5 ESP_OK] ∧
     (strcpy (new_char (max ((KV.driver.nvs_get_str (handler Scenario.committedStr.self.store)
        (c_str Scenario.label) none SIZE_MAX Scenario.committedStr.world.drv).length
        % SIZE_T_MOD) (['x', 'y', 'z', 'w'].length + 1))) ['x', 'y', 'z', 'w']).length
       = max ((KV.driver.nvs_get_str (handler Scenario.committedStr.self.store)
        (c_str Scenario.label) none SIZE_MAX Scenario.committedStr.world.drv).length
        % SIZE_T_MOD) (['x', 'y', 'z', 'w'].length + 1)) ∧
    (['x'].length + 1 < SIZE_T_MOD ∧
     (KV.driver.nvs_get_str (handler Scenario.committedStr.self.store) (c_str Scenario.count)
        none SIZE_MAX Scenario.committedStr.world.drv).err ≠ ESP_OK ∧
     (stream.read_string KV.driver Scenario.committedStr.self Scenario.count ['x']
        Scenario.committedStr.world).out = ['x']) :=
  ⟨⟨by decide, by decide, by decide, by decide,
    ((read_string_buffer_sizing KV.driver Scenario.committedStr.self Scenario.label
      ['x', 'y', 'z', 'w'] Scenario.committedStr.world (by decide)).1 (by decide)).2.1⟩,
   ⟨by decide, by decide,
    ((read_string_buffer_sizing KV.driver Scenario.committedStr.self Scenario.count ['x']
      Scenario.committedStr.world (by decide)).2 (by decide)).2.2.1⟩⟩

/-- C8, as stated, fails: a stream is opened, `write<uint32_t>("count", 5)` makes it dirty,
`close()` closes it without a commit, and the following `open` succeeds; the dirty flag is
still true after that `open`. -/
theorem reopen_after_dirty_close_is_dirty :
    Scenario.opened.val = ESP_OK ∧ Scenario.opened.self.chg_st = false ∧
    Scenario.wrote5.val = ESP_OK ∧ Scenario.wrote5.self.chg_st = true ∧
    Scenario.closedDirty.val = ESP_OK ∧ Scenario.closedDirty.self.store = 0 ∧
    Scenario.reopened.val = ESP_OK ∧ Scenario.reopened.self.chg_st ≠ false := by
  decide

/-- C8, amended: `open`, successful or not, leaves the dirty flag with the value it had
before the call, and so does `close()` followed by `open`.  Hence a successful `open` of a
newly constructed stream gives a clean open stream, while a stream closed dirty is dirty
again after it is re-opened. -/
theorem open_keeps_dirty_flag {σ : Type} (D : Driver σ) (self : stream) (name : CString)
    (mode : open_mode) (w : World σ) :
    (stream.open D self name mode w).self.chg_st = self.chg_st ∧
    (stream.open D (stream.close D self w).self name mode
      (stream.close D self w).world).self.chg_st = self.chg_st ∧
    (stream.open D stream.construct name mode w).self.chg_st = false ∧
    (stream.construct_open D name mode w).self.chg_st = false := by
  have h : ∀ (s : stream) (w' : World σ), (stream.open D s name mode w').self.chg_st = s.chg_st := by
    intro s w'
    simp only [stream.open]
    split <;> rfl
  refine ⟨h _ _, ?_, ?_, ?_⟩
  · rw [h]; rfl
  · rw [h]; rfl
  · unfold stream.construct_open
    simp only [h]
    rfl

/-- C1, evaluated where it fails: on the map-like driver, on an open read-write stream over
a usable device, with the key absent, for every integer type `t`: `write<t>(k, 0)` finds the
key absent, calls no set primitive, returns key-not-found and leaves the stream clean; the
following `read<t>(k)` returns key-not-found, not success, and leaves its destination (here
7) untouched instead of yielding 0. -/
theorem write_zero_to_absent_key_is_not_stored (t : IntT) :
    let wr := stream.write KV.driver t Scenario.opened.self Scenario.count 0
      Scenario.opened.world
    let rd := stream.read KV.driver t wr.self Scenario.count 7 wr.world
    Scenario.opened.val = ESP_OK ∧ (dev.check KV.driver Scenario.opened.world).1 = true ∧
    t.inRange 0 ∧
    wr.val = ESP_ERR_NVS_NOT_FOUND ∧ wr.world.log.countP Call.isSet = 0 ∧
    wr.self.chg_st = false ∧
    rd.val = ESP_ERR_NVS_NOT_FOUND ∧ rd.val ≠ ESP_OK ∧ rd.out = 7 := by
  cases t <;> decide

/-- Every typed integer read calls the driver's get once and returns its answer; the device
singleton is not consulted and not changed. -/
theorem read_calls_driver {σ : Type} (D : Driver σ) (t : IntT) (self : stream)
    (name : CString) (item : Int) (w : World σ) :
    (stream.read D t self name item w).world.log
      = w.log ++ [Call.nvs_get_int t (handler self.store) (c_str name)
          (D.nvs_get_int t (handler self.store) (c_str name) item w.drv).err] ∧
    (stream.read D t self name item w).val
      = (D.nvs_get_int t (handler self.store) (c_str name) item w.drv).err ∧
    (stream.read D t self name item w).world.core_instance = w.core_instance := by
  simp [stream.read, stream.core.read, c_str_idem]

/-- For every driver: when the pre-write get finds the key absent and leaves the destination
untouched, `write<t>(k, 0)` calls no set primitive and returns key-not-found. -/
theorem write_zero_absent_makes_no_set {σ : Type} (D : Driver σ) (t : IntT) (self : stream)
    (k : CString) (w : World σ)
    (hget : (D.nvs_get_int t (handler self.store) (c_str k) 0 w.drv).err = ESP_ERR_NVS_NOT_FOUND)
    (hout : (D.nvs_get_int t (handler self.store) (c_str k) 0 w.drv).out = 0) :
    (stream.write D t self k 0 w).val = ESP_ERR_NVS_NOT_FOUND ∧
    (stream.write D t self k 0 w).world.log
      = w.log ++ [Call.nvs_get_int t (handler self.store) (c_str k) ESP_ERR_NVS_NOT_FOUND] ∧
    (stream.write D t self k 0 w).world.drv
      = (D.nvs_get_int t (handler self.store) (c_str k) 0 w.drv).drv := by
  have h0 : t.wrap 0 = 0 := by cases t <;> decide
  simp [stream.write, stream.core.write, stream.read, stream.core.read, c_str_idem, hget, hout,
    h0]

/-- The lemma `write_zero_absent_makes_no_set` applies to the first write of 0 on the empty
store. -/
theorem write_zero_absent_makes_no_set_witness :
    (KV.driver.nvs_get_int .uint32_t (handler Scenario.opened.self.store) (c_str Scenario.count)
      0 Scenario.opened.world.drv).err = ESP_ERR_NVS_NOT_FOUND ∧
    (stream.write KV.driver .uint32_t Scenario.opened.self Scenario.count 0
      Scenario.opened.world).val = ESP_ERR_NVS_NOT_FOUND :=
  ⟨by decide,
   (write_zero_absent_makes_no_set KV.driver .uint32_t Scenario.opened.self Scenario.count
     Scenario.opened.world (by decide) (by decide)).1⟩

/-- For every driver: when the pre-write get succeeds or finds the key absent, and the value
it leaves in the temporary differs from `v`, `write<t>(k, v)` calls the set primitive; if the
set succeeds and the driver then returns `v` for the key, the following `read<t>(k)` succeeds
and yields `v`. -/
theorem write_then_read_when_set_issued {σ : Type} (D : Driver σ) (t : IntT) (self : stream)
    (k : CString) (v d : Int) (w : World σ) (hv : t.wrap v = v)
    (hget : (D.nvs_get_int t (handler self.store) (c_str k) 0 w.drv).err = ESP_OK ∨
      (D.nvs_get_int t (handler self.store) (c_str k) 0 w.drv).err = ESP_ERR_NVS_NOT_FOUND)
    (hne : t.wrap (D.nvs_get_int t (handler self.store) (c_str k) 0 w.drv).out ≠ v)
    (hset : (D.nvs_set_int t (handler self.store) (c_str k) v
      (D.nvs_get_int t (handler self.store) (c_str k) 0 w.drv).drv).err = ESP_OK)
    (hmap : (D.nvs_get_int t (handler self.store) (c_str k) d
      (D.nvs_set_int t (handler self.store) (c_str k) v
        (D.nvs_get_int t (handler self.store) (c_str k) 0 w.drv).drv).drv).err = ESP_OK ∧
      (D.nvs_get_int t (handler self.store) (c_str k) d
      (D.nvs_set_int t (handler self.store) (c_str k) v
        (D.nvs_get_int t (handler self.store) (c_str k) 0 w.drv).drv).drv).out = v) :
    (stream.write D t self k v w).val = ESP_OK ∧
    (stream.read D t (stream.write D t self k v w).self k d
      (stream.write D t self k v w).world).val = ESP_OK ∧
    (stream.read D t (stream.write D t self k v w).self k d
      (stream.write D t self k v w).world).out = v := by
  have hcond : (((D.nvs_get_int t (handler self.store) (c_str k) 0 w.drv).err == ESP_OK ||
      (D.nvs_get_int t (handler self.store) (c_str k) 0 w.drv).err == ESP_ERR_NVS_NOT_FOUND) &&
      t.wrap (D.nvs_get_int t (handler self.store) (c_str k) 0 w.drv).out != v) = true := by
    rcases hget with h | h <;> simp [h, hne]
  simp only [stream.write, stream.core.write, stream.read, stream.core.read, c_str_idem, hcond,
    if_true, hset]
  have h1 := hmap.1
  have h2 := hmap.2
  simp only [handler] at h1 h2 ⊢
  simp [stream.set_chgst, h1, h2, hv]

/-- The lemma `write_then_read_when_set_issued` applies to the first write of 5 on the empty
store. -/
theorem write_then_read_when_set_issued_witness :
    (KV.driver.nvs_get_int .uint32_t (handler Scenario.opened.self.store) (c_str Scenario.count)
      0 Scenario.opened.world.drv).err = ESP_ERR_NVS_NOT_FOUND ∧
    (stream.read KV.driver .uint32_t Scenario.wrote5.self Scenario.count 7
      Scenario.wrote5.world).out = 5 :=
  ⟨by decide,
   (write_then_read_when_set_issued KV.driver .uint32_t Scenario.opened.self Scenario.count 5 7
     Scenario.opened.world (by decide) (Or.inr (by decide)) (by decide) (by decide)
     (by decide)).2.2⟩

/-- For every driver: when the size query succeeds and reports the size of `item` in the
driver's unit (its length plus one), `write<const std::string&>` skips the comparison and
calls `set_string` once. -/
theorem write_string_same_size_calls_set {σ : Type} (D : Driver σ) (self : stream)
    (k item : CString) (w : World σ) (hM : item.length + 1 < SIZE_T_MOD)
    (hq : (D.nvs_get_str (handler self.store) (c_str k) none SIZE_MAX w.drv).err = ESP_OK)
    (hsz : (D.nvs_get_str (handler self.store) (c_str k) none SIZE_MAX w.drv).length
      = item.length + 1) :
    (stream.write_string D self k item w).world.log
      = w.log ++ [Call.nvs_get_str (handler self.store) (c_str k) none SIZE_MAX ESP_OK,
          Call.nvs_set_str (handler self.store) (c_str k) (c_str item)
            (D.nvs_set_str (handler self.store) (c_str k) (c_str item)
              (D.nvs_get_str (handler self.store) (c_str k) none SIZE_MAX w.drv).drv).err] := by
  simp [stream.write_string, stream.get_size_string, stream.write_set_str, hq, hsz,
    Nat.mod_eq_of_lt hM]

/-- The lemma `write_string_same_size_calls_set` applies to the second write of "ab". -/
theorem write_string_same_size_calls_set_witness :
    (KV.driver.nvs_get_str (handler Scenario.committedStr.self.store) (c_str Scenario.label)
      none SIZE_MAX Scenario.committedStr.world.drv).length = ['a', 'b'].length + 1 ∧
    Scenario.rewroteStr.world.log
      = Scenario.committedStr.world.log ++
        [Call.nvs_get_str (handler Scenario.committedStr.self.store) (c_str Scenario.label) none
           SIZE_MAX ESP_OK,
         Call.nvs_set_str (handler Scenario.committedStr.self.store) (c_str Scenario.label)
           (c_str ['a', 'b'])
           (KV.driver.nvs_set_str (handler Scenario.committedStr.self.store)
             (c_str Scenario.label) (c_str ['a', 'b'])
             (KV.driver.nvs_get_str (handler Scenario.committedStr.self.store)
               (c_str Scenario.label) none SIZE_MAX Scenario.committedStr.world.drv).drv).err] :=
  ⟨by decide,
   write_string_same_size_calls_set KV.driver Scenario.committedStr.self Scenario.label
     ['a', 'b'] Scenario.committedStr.world (by decide) (by decide) (by decide)⟩

/-- Reading a concatenated log is reading its two parts in turn. -/
theorem pendingSet_append (b : Bool) (xs ys : List Call) :
    pendingSet b (xs ++ ys) = pendingSet (pendingSet b xs) ys := by
  induction xs generalizing b with
  | nil => rfl
  | cons c cs ih => exact ih _

/-- The dirty flag after a typed integer write is the pending state of the calls it made. -/
theorem write_tracks_pending {σ : Type} (D : Driver σ) (t : IntT) (self : stream)
    (name : CString) (item : Int) (w : World σ) :
    ∃ calls, (stream.write D t self name item w).world.log = w.log ++ calls ∧
      (stream.write D t self name item w).self.chg_st = pendingSet self.chg_st calls := by
  simp only [stream.write, stream.core.write, stream.read, stream.core.read]
  split
  · refine ⟨_, List.append_assoc _ _ _, ?_⟩
    simp only [List.singleton_append, pendingSet, Call.isSetOk, Call.isCommitOk]
    split <;> simp_all [stream.set_chgst]
  · exact ⟨[_], rfl, by simp [pendingSet, Call.isSetOk, Call.isCommitOk]⟩

/-- The string read makes only get calls and does not touch the dirty flag. -/
theorem read_string_tracks_pending {σ : Type} (D : Driver σ) (self : stream)
    (name item : CString) (w : World σ) :
    ∃ calls, (stream.read_string D self name item w).world.log = w.log ++ calls ∧
      (∀ b, pendingSet b calls = b) ∧
      (stream.read_string D self name item w).self.chg_st = self.chg_st := by
  simp only [stream.read_string, stream.get_size_string]
  split
  · exact ⟨_, List.append_assoc _ _ _,
      by intro b; simp [pendingSet, Call.isSetOk, Call.isCommitOk], rfl⟩
  · exact ⟨[_], rfl, by intro b; simp [pendingSet, Call.isSetOk, Call.isCommitOk], rfl⟩

/-- The tail of the string writes: one set call, and the flag follows its result. -/
theorem write_set_str_tracks_pending {σ : Type} (D : Driver σ) (self : stream)
    (name item : CString) (w : World σ) :
    ∃ calls, (stream.write_set_str D self name item w).world.log = w.log ++ calls ∧
      (stream.write_set_str D self name item w).self.chg_st = pendingSet self.chg_st calls := by
  simp only [stream.write_set_str]
  refine ⟨[_], rfl, ?_⟩
  simp only [pendingSet, Call.isSetOk, Call.isCommitOk]
  split <;> simp_all [stream.set_chgst]

/-- The size query makes one get call and does not touch the dirty flag. -/
theorem get_size_string_tracks_pending {σ : Type} (D : Driver σ) (self : stream)
    (name : CString) (w : World σ) :
    ∃ calls, (stream.get_size_string D self name w).world.log = w.log ++ calls ∧
      (∀ b, pendingSet b calls = b) ∧
      (stream.get_size_string D self name w).self.chg_st = self.chg_st :=
  ⟨[_], rfl, by intro b; simp [pendingSet, Call.isSetOk, Call.isCommitOk], rfl⟩

/-- Composition of a step that makes no set or commit with a step that tracks the flag. -/
theorem tracks_pending_comp {l0 l1 l2 : List Call} {b0 b1 b2 : Bool}
    (h1 : ∃ calls, l1 = l0 ++ calls ∧ (∀ b, pendingSet b calls = b) ∧ b1 = b0)
    (h2 : ∃ calls, l2 = l1 ++ calls ∧ b2 = pendingSet b1 calls) :
    ∃ calls, l2 = l0 ++ calls ∧ b2 = pendingSet b0 calls := by
  obtain ⟨c1, e1, n1, f1⟩ := h1
  obtain ⟨c2, e2, f2⟩ := h2
  refine ⟨c1 ++ c2, by rw [e2, e1, List.append_assoc], ?_⟩
  rw [pendingSet_append, n1, f2, f1]

/-- The dirty flag after a string write is the pending state of the calls it made. -/
theorem write_string_tracks_pending {σ : Type} (D : Driver σ) (self : stream)
    (name item : CString) (w : World σ) :
    ∃ calls, (stream.write_string D self name item w).world.log = w.log ++ calls ∧
      (stream.write_string D self name item w).self.chg_st = pendingSet self.chg_st calls := by
  have hq := get_size_string_tracks_pending D self name w
  simp only [stream.write_string]
  split
  · have hr := read_string_tracks_pending D (stream.get_size_string D self name w).self name []
      (stream.get_size_string D self name w).world
    split
    · obtain ⟨c1, e1, n1, f1⟩ := hq
      obtain ⟨c2, e2, n2, f2⟩ := hr
      refine ⟨c1 ++ c2, by rw [e2, e1, List.append_assoc], ?_⟩
      rw [pendingSet_append, n1, n2, f2, f1]
    · apply tracks_pending_comp hq
      exact tracks_pending_comp hr (write_set_str_tracks_pending D _ name item _)
  · exact tracks_pending_comp hq (write_set_str_tracks_pending D _ name item _)

/-- The dirty flag after a C string write is the pending state of the calls it made. -/
theorem write_chars_tracks_pending {σ : Type} (D : Driver σ) (self : stream)
    (name item : CString) (w : World σ) :
    ∃ calls, (stream.write_chars D self name item w).world.log = w.log ++ calls ∧
      (stream.write_chars D self name item w).self.chg_st = pendingSet self.chg_st calls := by
  have hq := get_size_string_tracks_pending D self name w
  simp only [stream.write_chars, stream.get_size_chars]
  split
  · have hr := read_string_tracks_pending D (stream.get_size_string D self name w).self name []
      (stream.get_size_string D self name w).world
    split
    · obtain ⟨c1, e1, n1, f1⟩ := hq
      obtain ⟨c2, e2, n2, f2⟩ := hr
      refine ⟨c1 ++ c2, by rw [e2, e1, List.append_assoc], ?_⟩
      rw [pendingSet_append, n1, n2, f2, f1]
    · apply tracks_pending_comp hq
      exact tracks_pending_comp hr (write_set_str_tracks_pending D _ name (c_str item) _)
  · exact tracks_pending_comp hq (write_set_str_tracks_pending D _ name (c_str item) _)

/-- The usability check makes no set or commit call. -/
theorem check_tracks_pending {σ : Type} (D : Driver σ) (w : World σ) :
    ∃ calls, (dev.check D w).2.log = w.log ++ calls ∧ (∀ b, pendingSet b calls = b) := by
  unfold dev.check dev.core
  cases w.core_instance with
  | some i => exact ⟨[], by simp, fun b => rfl⟩
  | none => exact ⟨[_], rfl, by intro b; simp [pendingSet, Call.isSetOk, Call.isCommitOk]⟩

/-- The dirty flag after `commit()` is the pending state of the calls it made. -/
theorem commit_tracks_pending {σ : Type} (D : Driver σ) (self : stream) (w : World σ) :
    ∃ calls, (stream.commit D self w).world.log = w.log ++ calls ∧
      (stream.commit D self w).self.chg_st = pendingSet self.chg_st calls := by
  obtain ⟨c1, e1, n1⟩ := check_tracks_pending D w
  simp only [stream.commit]
  split
  · refine ⟨c1 ++ [_], by simp only [e1, List.append_assoc]; rfl, ?_⟩
    rw [pendingSet_append, n1]
    simp only [pendingSet, Call.isSetOk, Call.isCommitOk]
    split <;> simp_all [stream.clr_chngst]
  · refine ⟨c1, e1, ?_⟩
    rw [n1]
    have hne : ¬ (ESP_ERR_NVS_INVALID_STATE = ESP_OK) := by decide
    simp [hne]

/-- An operation other than `write_blob` keeps the dirty flag equal to the pending state of
the calls made. -/
theorem op_tracks_pending {σ : Type} (D : Driver σ) (op : Op) (hop : op.notBlob = true)
    (self : stream) (w : World σ) :
    ∃ calls, (op.run D self w).world.log = w.log ++ calls ∧
      (op.run D self w).self.chg_st = pendingSet self.chg_st calls := by
  cases op with
  | write t name item => exact write_tracks_pending D t self name item w
  | write_string name item => exact write_string_tracks_pending D self name item w
  | write_chars name item => exact write_chars_tracks_pending D self name item w
  | write_blob name item length => simp [Op.notBlob] at hop
  | commit => exact commit_tracks_pending D self w

/-- Dirty-flag invariant for sequences without `write_blob`: for every driver and every
sequence of integer writes, string writes and commits, the dirty flag after the sequence is
the pending state of the driver calls made by the sequence, read from the flag before it. -/
theorem dirty_flag_tracks_pending_without_blob {σ : Type} (D : Driver σ) (ops : List Op)
    (hops : ∀ op ∈ ops, op.notBlob = true) (self : stream) (w : World σ) :
    ∃ calls, (Op.runAll D ops self w).2.log = w.log ++ calls ∧
      (Op.runAll D ops self w).1.chg_st = pendingSet self.chg_st calls := by
  induction ops generalizing self w with
  | nil => exact ⟨[], by simp [Op.runAll], rfl⟩
  | cons op ops ih =>
    obtain ⟨c1, e1, f1⟩ := op_tracks_pending D op (hops op (List.mem_cons_self _ _)) self w
    obtain ⟨c2, e2, f2⟩ := ih (fun o ho => hops o (List.mem_cons_of_mem _ ho))
      (op.run D self w).self (op.run D self w).world
    refine ⟨c1 ++ c2, ?_, ?_⟩
    · simp only [Op.runAll, e2, e1, List.append_assoc]
    · simp only [Op.runAll, f2, f1, pendingSet_append]


/-- The invariant applies to the sequence write, commit, string write on the empty store. -/
theorem dirty_flag_tracks_pending_without_blob_witness :
    (∀ op ∈ [Op.write .uint32_t Scenario.count 5, Op.commit,
        Op.write_string Scenario.label ['a', 'b']], op.notBlob = true) ∧
    ∃ calls,
      (Op.runAll KV.driver [Op.write .uint32_t Scenario.count 5, Op.commit,
        Op.write_string Scenario.label ['a', 'b']] Scenario.opened.self
        Scenario.opened.world).2.log = Scenario.opened.world.log ++ calls ∧
      (Op.runAll KV.driver [Op.write .uint32_t Scenario.count 5, Op.commit,
        Op.write_string Scenario.label ['a', 'b']] Scenario.opened.self
        Scenario.opened.world).1.chg_st = pendingSet Scenario.opened.self.chg_st calls :=
  ⟨by decide,
   dirty_flag_tracks_pending_without_blob KV.driver _ (by decide) Scenario.opened.self
     Scenario.opened.world⟩

/-- C5, evaluated where it fails: on a clean open stream over a usable device,
`write_blob("count", "x", 1)` makes one call of the driver's `set_blob`, which returns
success, so a set has succeeded since the start; the dirty flag is false afterwards. -/
theorem write_blob_leaves_stream_clean :
    Scenario.opened.val = ESP_OK ∧ Scenario.opened.self.chg_st = false ∧
    Scenario.wroteBlob.2.log.drop Scenario.opened.world.log.length
      = [Call.nvs_set_blob 1 Scenario.count ['x'] 1 ESP_OK] ∧
    pendingSet false (Scenario.wroteBlob.2.log.drop Scenario.opened.world.log.length) = true ∧
    Scenario.wroteBlob.1.chg_st = false := by
  decide

/-- C6, evaluated where it fails: the partition initialisation answered no-free-pages, so
the device is unusable and `open` failed with invalid-state without calling the driver.
For every integer type `t`, `read<t>`, and likewise `read<char>`, `read<bool>` and
`read<std::string>`, calls a get primitive of the driver once and returns and stores the
driver's answer (invalid-handle), not invalid-state.  The sibling `read_blob` does return
invalid-state without a driver call. -/
theorem typed_read_on_unusable_device_calls_driver (t : IntT) :
    let u := Scenario.unusable
    let ri := stream.read KV.driver t u.self Scenario.count 0 u.world
    let rc := stream.read_char KV.driver u.self Scenario.count 0 u.world
    let rb := stream.read_bool KV.driver u.self Scenario.count false u.world
    let rs := stream.read_string KV.driver u.self Scenario.label [] u.world
    let rblob := stream.read_blob KV.driver u.self Scenario.count (some ['x']) 1 u.world
    (dev.check KV.driver u.world).1 = false ∧ u.val = ESP_ERR_NVS_INVALID_STATE ∧
    u.world.log = [Call.nvs_flash_init ESP_ERR_NVS_NO_FREE_PAGES] ∧
    (ri.val = ESP_ERR_NVS_INVALID_HANDLE ∧ ri.self.err = ESP_ERR_NVS_INVALID_HANDLE ∧
      ri.val ≠ ESP_ERR_NVS_INVALID_STATE ∧
      ri.world.log = u.world.log ++ [Call.nvs_get_int t 0 Scenario.count
        ESP_ERR_NVS_INVALID_HANDLE]) ∧
    (rc.val ≠ ESP_ERR_NVS_INVALID_STATE ∧ rc.world.log.countP Call.isGet = 1) ∧
    (rb.val ≠ ESP_ERR_NVS_INVALID_STATE ∧ rb.world.log.countP Call.isGet = 1) ∧
    (rs.val ≠ ESP_ERR_NVS_INVALID_STATE ∧ rs.world.log.countP Call.isGet = 1) ∧
    (rblob.val = ESP_ERR_NVS_INVALID_STATE ∧ rblob.world.log.countP Call.isGet = 0) := by
  cases t <;> decide

/-- C9, evaluated where it fails: the stream is clean and the key "lbl" stores "ab"; the size
query succeeds and reports 3 (two characters and the terminator) and the string get returns
"ab".  Nevertheless `write<const std::string&>("lbl", "ab")` and
`write<const char[]>("lbl", "ab")` each call `set_string` once and set the dirty flag: the
reported size 3 is compared with the length 2, so the contents are never compared. -/
theorem write_same_string_calls_set :
    Scenario.committedStr.self.chg_st = false ∧
    (KV.driver.nvs_get_str (handler Scenario.committedStr.self.store) (c_str Scenario.label)
      none SIZE_MAX Scenario.committedStr.world.drv).err = ESP_OK ∧
    (KV.driver.nvs_get_str (handler Scenario.committedStr.self.store) (c_str Scenario.label)
      none SIZE_MAX Scenario.committedStr.world.drv).length = ['a', 'b'].length + 1 ∧
    (stream.read_string KV.driver Scenario.committedStr.self Scenario.label []
      Scenario.committedStr.world).val = ESP_OK ∧
    (stream.read_string KV.driver Scenario.committedStr.self Scenario.label []
      Scenario.committedStr.world).out = ['a', 'b'] ∧
    (Scenario.rewroteStr.val = ESP_OK ∧ Scenario.rewroteStr.self.chg_st = true ∧
      Scenario.rewroteStr.world.log.drop Scenario.committedStr.world.log.length
        = [Call.nvs_get_str 1 Scenario.label none SIZE_MAX ESP_OK,
           Call.nvs_set_str 1 Scenario.label ['a', 'b'] ESP_OK]) ∧
    (Scenario.rewroteChars.val = ESP_OK ∧ Scenario.rewroteChars.self.chg_st = true ∧
      Scenario.rewroteChars.world.log.drop Scenario.committedStr.world.log.length
        = [Call.nvs_get_str 1 Scenario.label none SIZE_MAX ESP_OK,
           Call.nvs_set_str 1 Scenario.label ['a', 'b'] ESP_OK]) := by
  decide

/-- C11. `get_size` result.  Let `qs` be the result of the driver's string get with a null
buffer and `qb` that of its blob get with a null buffer, on the key `k`, and let `n` be a
value of `size_t`.  If `qs` is success with size `n`, then `get_size<std::string>(k)` and
`get_size<char[]>(k)` return `n` and `err` is success; if `qs` is an error, they return the
sentinel `(size_t)-1`, the maximum value of `size_t`, and `err` is that error.  The same
holds for `get_size<void>(k)` and `get_size<void*>(k)` with `qb`.  Each of the four makes
exactly that one driver call. -/
theorem get_size_result {σ : Type} (D : Driver σ) (self : stream) (k : CString) (w : World σ)
    (n : Nat) (hn : n < SIZE_T_MOD) :
    let qs := D.nvs_get_str (handler self.store) (c_str k) none SIZE_MAX w.drv
    let qb := D.nvs_get_blob (handler self.store) (c_str k) none SIZE_MAX w.drv
    let gs := stream.get_size_string D self k w
    let gc := stream.get_size_chars D self k w
    let gv := stream.get_size_void D self k w
    let gp := stream.get_size_void_ptr D self k w
    (qs.err = ESP_OK → qs.length = n →
      gs.val = n ∧ gs.self.err = ESP_OK ∧ gc.val = n ∧ gc.self.err = ESP_OK) ∧
    (qs.err ≠ ESP_OK →
      gs.val = SIZE_MAX ∧ gs.self.err = qs.err ∧ gc.val = SIZE_MAX ∧ gc.self.err = qs.err) ∧
    (qb.err = ESP_OK → qb.length = n →
      gv.val = n ∧ gv.self.err = ESP_OK ∧ gp.val = n ∧ gp.self.err = ESP_OK) ∧
    (qb.err ≠ ESP_OK →
      gv.val = SIZE_MAX ∧ gv.self.err = qb.err ∧ gp.val = SIZE_MAX ∧ gp.self.err = qb.err) ∧
    gs.world.log = w.log ++ [Call.nvs_get_str (handler self.store) (c_str k) none SIZE_MAX qs.err] ∧
    gc.world.log = gs.world.log ∧
    gv.world.log = w.log ++ [Call.nvs_get_blob (handler self.store) (c_str k) none SIZE_MAX qb.err] ∧
    gp.world.log = gv.world.log ∧
    SIZE_MAX + 1 = SIZE_T_MOD := by
  intro qs qb gs gc gv gp
  refine ⟨?_, ?_, ?_, ?_, rfl, rfl, rfl, rfl, by decide⟩
  · intro he hl
    have he' : (D.nvs_get_str (handler self.store) (c_str k) none SIZE_MAX w.drv).err = ESP_OK := he
    have hl' : (D.nvs_get_str (handler self.store) (c_str k) none SIZE_MAX w.drv).length = n := hl
    simp [gs, gc, stream.get_size_chars, stream.get_size_string, he', hl', Nat.mod_eq_of_lt hn]
  · intro he
    have he' : (D.nvs_get_str (handler self.store) (c_str k) none SIZE_MAX w.drv).err ≠ ESP_OK := he
    simp [gs, gc, qs, stream.get_size_chars, stream.get_size_string, he']
  · intro he hl
    have he' : (D.nvs_get_blob (handler self.store) (c_str k) none SIZE_MAX w.drv).err = ESP_OK := he
    have hl' : (D.nvs_get_blob (handler self.store) (c_str k) none SIZE_MAX w.drv).length = n := hl
    simp [gv, gp, stream.get_size_void_ptr, stream.get_size_void, he', hl', Nat.mod_eq_of_lt hn]
  · intro he
    have he' : (D.nvs_get_blob (handler self.store) (c_str k) none SIZE_MAX w.drv).err ≠ ESP_OK := he
    simp [gv, gp, qb, stream.get_size_void_ptr, stream.get_size_void, he']

/-- Witness of C11: "lbl" stores the string "ab" (size 3) and "count" stores a blob of 3
bytes; "flag" is stored neither as a string nor as a blob, so both queries answer
key-not-found. -/
theorem get_size_result_witness :
    (3 < SIZE_T_MOD ∧
     (KV.driver.nvs_get_str (handler Scenario.committedStr.self.store) (c_str Scenario.label)
        none SIZE_MAX Scenario.committedStr.world.drv).err = ESP_OK ∧
     (KV.driver.nvs_get_str (handler Scenario.committedStr.self.store) (c_str Scenario.label)
        none SIZE_MAX Scenario.committedStr.world.drv).length = 3 ∧
     (stream.get_size_string KV.driver Scenario.committedStr.self Scenario.label
        Scenario.committedStr.world).val = 3) ∧
    ((KV.driver.nvs_get_str (handler Scenario.committedStr.self.store) (c_str Scenario.flag)
        none SIZE_MAX Scenario.committedStr.world.drv).err ≠ ESP_OK ∧
     (stream.get_size_string KV.driver Scenario.committedStr.self Scenario.flag
        Scenario.committedStr.world).val = SIZE_MAX ∧
     (stream.get_size_string KV.driver Scenario.committedStr.self Scenario.flag
        Scenario.committedStr.world).self.err = ESP_ERR_NVS_NOT_FOUND) ∧
    ((KV.driver.nvs_get_blob (handler Scenario.wroteBlob3.self.store) (c_str Scenario.count)
        none SIZE_MAX Scenario.wroteBlob3.world.drv).err = ESP_OK ∧
     (KV.driver.nvs_get_blob (handler Scenario.wroteBlob3.self.store) (c_str Scenario.count)
        none SIZE_MAX Scenario.wroteBlob3.world.drv).length = 3 ∧
     (stream.get_size_void_ptr KV.driver Scenario.wroteBlob3.self Scenario.count
        Scenario.wroteBlob3.world).val = 3) ∧
    ((KV.driver.nvs_get_blob (handler Scenario.wroteBlob3.self.store) (c_str Scenario.flag)
        none SIZE_MAX Scenario.wroteBlob3.world.drv).err ≠ ESP_OK ∧
     (stream.get_size_void KV.driver Scenario.wroteBlob3.self Scenario.flag
        Scenario.wroteBlob3.world).val = SIZE_MAX) :=
  ⟨⟨by decide, by decide, by decide,
    ((get_size_result KV.driver Scenario.committedStr.self Scenario.label
      Scenario.committedStr.world 3 (by decide)).1 (by decide) (by decide)).1⟩,
   ⟨by decide,
    ((get_size_result KV.driver Scenario.committedStr.self Scenario.flag
      Scenario.committedStr.world 3 (by decide)).2.1 (by decide)).1,
    by decide⟩,
   ⟨by decide, by decide,
    ((get_size_result KV.driver Scenario.wroteBlob3.self Scenario.count
      Scenario.wroteBlob3.world 3 (by decide)).2.2.1 (by decide) (by decide)).2.2.1⟩,
   ⟨by decide,
    ((get_size_result KV.driver Scenario.wroteBlob3.self Scenario.flag
      Scenario.wroteBlob3.world 3 (by decide)).2.2.2.1 (by decide)).1⟩⟩

/-- C12. Boolean decoding.  Let `b` be the `int8_t` value that the driver's int8 get, as
`read<bool>(k)` issues it (destination preloaded with the code of 1 or 0 according to the
prior value `item`), returns with success.  Then `read<bool>(k)` returns success and yields
false if and only if `b` is 48, the code of the character 0, and true for every other
value, whatever `item` was; in particular it yields true for 0 and for 49, the code of the
character 1. -/
theorem read_bool_decoding {σ : Type} (D : Driver σ) (self : stream) (k : CString)
    (item : Bool) (w : World σ) (b : Int)
    (hget : (D.nvs_get_int .int8_t (handler self.store) (c_str k) (if item then 49 else 48)
      w.drv).err = ESP_OK)
    (hval : IntT.int8_t.wrap (D.nvs_get_int .int8_t (handler self.store) (c_str k)
      (if item then 49 else 48) w.drv).out = b) :
    (stream.read_bool D self k item w).val = ESP_OK ∧
    (stream.read_bool D self k item w).self.err = ESP_OK ∧
    ((stream.read_bool D self k item w).out = false ↔ b = 48) ∧
    (b ≠ 48 → (stream.read_bool D self k item w).out = true) ∧
    (b = 0 → (stream.read_bool D self k item w).out = true) ∧
    (b = 49 → (stream.read_bool D self k item w).out = true) := by
  have hout : (stream.read_bool D self k item w).out = !(b == 48) := by
    simp only [stream.read_bool, stream.read_char, stream.read, stream.core.read, c_str_idem,
      hval]
  have herr : (stream.read_bool D self k item w).self.err = ESP_OK := by
    simp only [stream.read_bool, stream.read_char, stream.read, stream.core.read, c_str_idem,
      hget]
  have hvalr : (stream.read_bool D self k item w).val = ESP_OK := herr
  refine ⟨hvalr, herr, ?_, ?_, ?_, ?_⟩
  · rw [hout]; simp
  · intro h; rw [hout]; simp [h]
  · intro h; rw [hout, h]; decide
  · intro h; rw [hout, h]; decide

/-- Witness of C12: "flag" stores 48 and is read into a variable that held true; "flag"
stores 49 and is read into a variable that held false. -/
theorem read_bool_decoding_witness :
    ((KV.driver.nvs_get_int .int8_t (handler Scenario.wroteFlag0.self.store)
        (c_str Scenario.flag) (if true then 49 else 48) Scenario.wroteFlag0.world.drv).err
       = ESP_OK ∧
     IntT.int8_t.wrap (KV.driver.nvs_get_int .int8_t (handler Scenario.wroteFlag0.self.store)
        (c_str Scenario.flag) (if true then 49 else 48) Scenario.wroteFlag0.world.drv).out
       = 48 ∧
     (stream.read_bool KV.driver Scenario.wroteFlag0.self Scenario.flag true
        Scenario.wroteFlag0.world).out = false) ∧
    ((KV.driver.nvs_get_int .int8_t (handler Scenario.wroteFlag1.self.store)
        (c_str Scenario.flag) (if false then 49 else 48) Scenario.wroteFlag1.world.drv).err
       = ESP_OK ∧
     IntT.int8_t.wrap (KV.driver.nvs_get_int .int8_t (handler Scenario.wroteFlag1.self.store)
        (c_str Scenario.flag) (if false then 49 else 48) Scenario.wroteFlag1.world.drv).out
       = 49 ∧
     (stream.read_bool KV.driver Scenario.wroteFlag1.self Scenario.flag false
        Scenario.wroteFlag1.world).out = true) :=
  ⟨⟨by decide, by decide,
    ((read_bool_decoding KV.driver Scenario.wroteFlag0.self Scenario.flag true
      Scenario.wroteFlag0.world 48 (by decide) (by decide)).2.2.1).2 rfl⟩,
   ⟨by decide, by decide,
    (read_bool_decoding KV.driver Scenario.wroteFlag1.self Scenario.flag false
      Scenario.wroteFlag1.world 49 (by decide) (by decide)).2.2.2.2.2 rfl⟩⟩

/-- After `dev::core()` the singleton exists. -/
theorem core_instance_after_core {σ : Type} (D : Driver σ) (w : World σ) :
    (dev.core D w).2.core_instance = some (dev.core D w).1 := by
  unfold dev.core
  cases h : w.core_instance with
  | some i => simp [h]
  | none => simp

/-- A second `dev::core()` returns the singleton the first one returned and calls
nothing. -/
theorem core_idem {σ : Type} (D : Driver σ) (w : World σ) :
    dev.core D (dev.core D w).2 = dev.core D w := by
  cases h : w.core_instance with
  | some i => simp [dev.core, h]
  | none => simp [dev.core, h]

/-- C13. One-shot partition recovery.  Let `c` be the singleton as `partition()` finds it
(its first step obtains the singleton, which is constructed then if it was not before) and
`i` the result of the driver's partition initialisation on the state at that point.  If the
status of `c` is no-free-pages or new-version-found, `partition()` calls the initialisation
exactly once, the status afterwards is the code of that call, whatever it is, and the
singleton is returned.  For every other status no driver call is made, the status is
unchanged, and the singleton is returned. -/
theorem partition_one_shot_recovery {σ : Type} (D : Driver σ) (w : World σ) :
    let c := dev.core D w
    let i := D.nvs_flash_init c.2.drv
    let r := dev.partition D w
    (c.1.status = ESP_ERR_NVS_NO_FREE_PAGES ∨ c.1.status = ESP_ERR_NVS_NEW_VERSION_FOUND →
      r.2.log = c.2.log ++ [Call.nvs_flash_init i.err] ∧
      r.2.log.countP Call.isInit = c.2.log.countP Call.isInit + 1 ∧
      r.1.status = i.err ∧ r.2.core_instance = some r.1 ∧ r.2.drv = i.drv) ∧
    (c.1.status ≠ ESP_ERR_NVS_NO_FREE_PAGES → c.1.status ≠ ESP_ERR_NVS_NEW_VERSION_FOUND →
      r.2.log = c.2.log ∧ r.2.log.countP Call.isInit = c.2.log.countP Call.isInit ∧
      r.1 = c.1 ∧ r.1.status = c.1.status ∧ r.2.core_instance = some r.1 ∧
      r.2.drv = c.2.drv) ∧
    (∀ inst, w.core_instance = some inst → c.1 = inst ∧ c.2 = w) := by
  intro c i r
  have hidem := core_idem D w
  refine ⟨?_, ?_, ?_⟩
  · intro hs
    have hcond : ((dev.core D w).1.status == ESP_ERR_NVS_NO_FREE_PAGES ||
        (dev.core D w).1.status == ESP_ERR_NVS_NEW_VERSION_FOUND) = true := by
      rcases hs with h | h
      · have h' : (dev.core D w).1.status = ESP_ERR_NVS_NO_FREE_PAGES := h
        simp [h']
      · have h' : (dev.core D w).1.status = ESP_ERR_NVS_NEW_VERSION_FOUND := h
        simp [h']
    have hr : r = dev.core D
        { (dev.reInit D (dev.core D w).1 (dev.core D w).2).2.2 with
          core_instance := some (dev.reInit D (dev.core D w).1 (dev.core D w).2).2.1 } := by
      simp only [r, dev.partition, dev.state, hidem, ite_self, hcond, if_true]
    rw [hr]
    simp [dev.core, dev.reInit, dev.Init, dev.status, c, i, List.countP_append, Call.isInit]
  · intro h1 h2
    have h1' : (dev.core D w).1.status ≠ ESP_ERR_NVS_NO_FREE_PAGES := h1
    have h2' : (dev.core D w).1.status ≠ ESP_ERR_NVS_NEW_VERSION_FOUND := h2
    have hr : r = dev.core D w := by
      simp [r, dev.partition, dev.state, hidem, h1', h2']
    rw [hr]
    exact ⟨rfl, rfl, rfl, rfl, core_instance_after_core D w, rfl⟩
  · intro inst hi
    simp [c, dev.core, hi]

/-- Witness of C13: a singleton whose status is no-free-pages is initialised once more, and
the driver answers no-free-pages again; a singleton whose status is success is returned
without a driver call. -/
theorem partition_one_shot_recovery_witness :
    ((dev.core KV.driver Scenario.unusable.world).1.status = ESP_ERR_NVS_NO_FREE_PAGES ∧
     (dev.partition KV.driver Scenario.unusable.world).2.log.countP Call.isInit
       = (dev.core KV.driver Scenario.unusable.world).2.log.countP Call.isInit + 1 ∧
     (dev.partition KV.driver Scenario.unusable.world).1.status
       = ESP_ERR_NVS_NO_FREE_PAGES) ∧
    ((dev.core KV.driver Scenario.opened.world).1.status ≠ ESP_ERR_NVS_NO_FREE_PAGES ∧
     (dev.core KV.driver Scenario.opened.world).1.status ≠ ESP_ERR_NVS_NEW_VERSION_FOUND ∧
     (dev.partition KV.driver Scenario.opened.world).2.log
       = (dev.core KV.driver Scenario.opened.world).2.log) ∧
    (Scenario.opened.world.core_instance = some { err := ESP_OK } ∧
     (dev.core KV.driver Scenario.opened.world).2 = Scenario.opened.world) :=
  ⟨⟨by decide,
    ((partition_one_shot_recovery KV.driver Scenario.unusable.world).1
      (Or.inl (by decide))).2.1,
    by decide⟩,
   ⟨by decide, by decide,
    ((partition_one_shot_recovery KV.driver Scenario.opened.world).2.1
      (by decide) (by decide)).1⟩,
   ⟨by decide,
    ((partition_one_shot_recovery KV.driver Scenario.opened.world).2.2
      { err := ESP_OK } (by decide)).2⟩⟩

/-- The tail of the string writes calls `set_string` once with the C string of the item,
returns and stores its result, and marks the stream dirty exactly when it succeeds. -/
theorem write_set_str_result {σ : Type} (D : Driver σ) (self : stream) (k item : CString)
    (w : World σ) :
    (stream.write_set_str D self k item w).world.log
      = w.log ++ [Call.nvs_set_str (handler self.store) (c_str k) (c_str item)
          (D.nvs_set_str (handler self.store) (c_str k) (c_str item) w.drv).err] ∧
    (stream.write_set_str D self k item w).val
      = (D.nvs_set_str (handler self.store) (c_str k) (c_str item) w.drv).err ∧
    (stream.write_set_str D self k item w).self.err
      = (D.nvs_set_str (handler self.store) (c_str k) (c_str item) w.drv).err ∧
    ((D.nvs_set_str (handler self.store) (c_str k) (c_str item) w.drv).err = ESP_OK →
      (stream.write_set_str D self k item w).self.chg_st = true) ∧
    ((D.nvs_set_str (handler self.store) (c_str k) (c_str item) w.drv).err ≠ ESP_OK →
      (stream.write_set_str D self k item w).self.chg_st = self.chg_st) ∧
    (stream.write_set_str D self k item w).world.drv
      = (D.nvs_set_str (handler self.store) (c_str k) (c_str item) w.drv).drv := by
  refine ⟨rfl, ?_, ?_, ?_, ?_, rfl⟩
  · simp only [stream.write_set_str]; split <;> rfl
  · simp only [stream.write_set_str]; split <;> rfl
  · intro h; simp [stream.write_set_str, h, stream.set_chgst]
  · intro h; simp [stream.write_set_str, h]

/-- C14. String write is fail-open on a failed size query.  Let `q` be the result of the
size query on the key and `p` the result of the driver's `set_string` with the C string of
`item`, issued on the state that the query left.  If `q` is any code other than success,
then `write<const std::string&>` and `write<const char[]>` make no further get call and
call `set_string` exactly once, with that string; they return `p`, store it in `err`, and
the dirty flag becomes true if `p` is success and keeps its value otherwise. -/
theorem write_string_fail_open {σ : Type} (D : Driver σ) (self : stream) (k item : CString)
    (w : World σ)
    (hq : (D.nvs_get_str (handler self.store) (c_str k) none SIZE_MAX w.drv).err ≠ ESP_OK) :
    let q := D.nvs_get_str (handler self.store) (c_str k) none SIZE_MAX w.drv
    let p := D.nvs_set_str (handler self.store) (c_str k) (c_str item) q.drv
    let ws := stream.write_string D self k item w
    let wc := stream.write_chars D self k item w
    (ws.world.log = w.log ++ [Call.nvs_get_str (handler self.store) (c_str k) none SIZE_MAX q.err,
        Call.nvs_set_str (handler self.store) (c_str k) (c_str item) p.err] ∧
      ws.world.log.countP Call.isSet = w.log.countP Call.isSet + 1 ∧
      ws.world.log.countP Call.isGet = w.log.countP Call.isGet + 1 ∧
      ws.val = p.err ∧ ws.self.err = p.err ∧
      (p.err = ESP_OK → ws.self.chg_st = true) ∧
      (p.err ≠ ESP_OK → ws.self.chg_st = self.chg_st) ∧ ws.world.drv = p.drv) ∧
    (wc.world.log = ws.world.log ∧ wc.val = p.err ∧ wc.self.err = p.err ∧
      (p.err = ESP_OK → wc.self.chg_st = true) ∧
      (p.err ≠ ESP_OK → wc.self.chg_st = self.chg_st) ∧ wc.world.drv = p.drv) := by
  intro q p ws wc
  have hws : ws = stream.write_set_str D (stream.get_size_string D self k w).self k item
      (stream.get_size_string D self k w).world := by
    simp [ws, stream.write_string, stream.get_size_string, hq]
  have hwc : wc = stream.write_set_str D (stream.get_size_string D self k w).self k (c_str item)
      (stream.get_size_string D self k w).world := by
    simp [wc, stream.write_chars, stream.get_size_chars, stream.get_size_string, hq]
  have h1 := write_set_str_result D (stream.get_size_string D self k w).self k item
    (stream.get_size_string D self k w).world
  have h2 := write_set_str_result D (stream.get_size_string D self k w).self k (c_str item)
    (stream.get_size_string D self k w).world
  rw [c_str_idem] at h2
  rw [hws, hwc]
  have hlog : (stream.write_set_str D (stream.get_size_string D self k w).self k item
      (stream.get_size_string D self k w).world).world.log
      = w.log ++ [Call.nvs_get_str (handler self.store) (c_str k) none SIZE_MAX q.err,
        Call.nvs_set_str (handler self.store) (c_str k) (c_str item) p.err] := by
    rw [h1.1]
    simp [stream.get_size_string, q, p]
  refine ⟨⟨hlog, ?_, ?_, h1.2.1, h1.2.2.1, h1.2.2.2.1, h1.2.2.2.2.1, h1.2.2.2.2.2⟩,
    ⟨?_, h2.2.1, h2.2.2.1, h2.2.2.2.1, h2.2.2.2.2.1, h2.2.2.2.2.2⟩⟩
  · rw [hlog]; simp [List.countP_append, List.countP_cons, Call.isSet]
  · rw [hlog]; simp [List.countP_append, List.countP_cons, Call.isGet]
  · rw [h2.1, h1.1]

/-- Witness of C14: on an open stream the key "lbl" is absent, so the size query answers
key-not-found and the set succeeds; on the stream that could not be opened the query
answers invalid-handle and so does the set. -/
theorem write_string_fail_open_witness :
    ((KV.driver.nvs_get_str (handler Scenario.opened.self.store) (c_str Scenario.label) none
        SIZE_MAX Scenario.opened.world.drv).err ≠ ESP_OK ∧
     (stream.write_string KV.driver Scenario.opened.self Scenario.label ['a', 'b']
        Scenario.opened.world).world.log.countP Call.isSet
       = Scenario.opened.world.log.countP Call.isSet + 1 ∧
     (stream.write_string KV.driver Scenario.opened.self Scenario.label ['a', 'b']
        Scenario.opened.world).self.chg_st = true) ∧
    ((KV.driver.nvs_get_str (handler Scenario.unusable.self.store) (c_str Scenario.label) none
        SIZE_MAX Scenario.unusable.world.drv).err ≠ ESP_OK ∧
     (stream.write_chars KV.driver Scenario.unusable.self Scenario.label ['a', 'b']
        Scenario.unusable.world).val
       = (KV.driver.nvs_set_str (handler Scenario.unusable.self.store) (c_str Scenario.label)
           (c_str ['a', 'b'])
           (KV.driver.nvs_get_str (handler Scenario.unusable.self.store) (c_str Scenario.label)
             none SIZE_MAX Scenario.unusable.world.drv).drv).err ∧
     (stream.write_chars KV.driver Scenario.unusable.self Scenario.label ['a', 'b']
        Scenario.unusable.world).val = ESP_ERR_NVS_INVALID_HANDLE ∧
     (stream.write_chars KV.driver Scenario.unusable.self Scenario.label ['a', 'b']
        Scenario.unusable.world).self.chg_st = false) :=
  ⟨⟨by decide,
    (write_string_fail_open KV.driver Scenario.opened.self Scenario.label ['a', 'b']
      Scenario.opened.world (by decide)).1.2.1,
    by decide⟩,
   ⟨by decide,
    (write_string_fail_open KV.driver Scenario.unusable.self Scenario.label ['a', 'b']
      Scenario.unusable.world (by decide)).2.2.1,
    by decide, by decide⟩⟩

end nvs
